import Mathlib

/-!
Verification development for the vision-calibrator repository.

The embedding follows `src/lib/calculator.ts`.  JavaScript numbers are
modelled as rationals (`ℚ`); `Math.round` is modelled as round-half-up
(`jround`); the in-place mutation of the caller's `conditions` object is
modelled by returning the amended condition record as a second component,
as the specification itself suggests.  The straight-line rule sequence of
`calculateRecommendations` is embedded as a list of state transformers
applied in the source's fixed order.
-/

/-- One eye of a prescription (`Prescription.rightEye` / `.leftEye`). -/
structure EyeRx where
  sphere : ℚ
  cylinder : ℚ
  axis : ℚ
deriving DecidableEq

/-- `Prescription` from `calculator.ts`. -/
structure Prescription where
  rightEye : EyeRx
  leftEye : EyeRx
deriving DecidableEq

/-- `VisualConditions` from `calculator.ts`: seven independent flags. -/
structure VisualConditions where
  myopia : Bool
  hyperopia : Bool
  astigmatism : Bool
  eyeStrain : Bool
  blurOrGhosting : Bool
  lightSensitivity : Bool
  visualCrowding : Bool
deriving DecidableEq

/-- `ColorVisionType` from `calculator.ts`. -/
inductive ColorVisionType where
  | normal
  | deuteranopia
  | protanopia
  | tritanopia
  | achromatopsia
deriving DecidableEq

/-- The string a `ColorVisionType` value interpolates to in a template
literal (used by the color-vision explanation). -/
def cvString : ColorVisionType → String
  | .normal => "normal"
  | .deuteranopia => "deuteranopia"
  | .protanopia => "protanopia"
  | .tritanopia => "tritanopia"
  | .achromatopsia => "achromatopsia"

/-- `CurrentSettings` from `calculator.ts`. -/
structure CurrentSettings where
  fontSize : ℚ
  lineHeight : ℚ
  fontWeight : ℚ
deriving DecidableEq

/-- The cursor-style union type `'bar' | 'block' | 'underline'`. -/
inductive CursorStyle where
  | bar
  | block
  | underline
deriving DecidableEq

/-- The string a `CursorStyle` value interpolates / serializes to. -/
def cursorString : CursorStyle → String
  | .bar => "bar"
  | .block => "block"
  | .underline => "underline"

/-- `ResearchCitation` from `calculator.ts`. -/
structure ResearchCitation where
  finding : String
  citedSource : String
  year : ℤ
deriving DecidableEq

/-- `Recommendation` from `calculator.ts` (the engine's output record). -/
structure Recommendation where
  fontSize : ℚ
  lineHeight : ℚ
  fontWeight : ℚ
  cursorStyle : CursorStyle
  suggestedFonts : List String
  suggestedThemes : List String
  explanations : List String
  research : List ResearchCitation
deriving DecidableEq

/-- `ASTIGMATISM_FRIENDLY_FONTS` from `calculator.ts`. -/
def ASTIGMATISM_FRIENDLY_FONTS : List String :=
  ["IBM Plex Mono",
   "JetBrains Mono",
   "Fira Code",
   "Input Mono",
   "Atkinson Hyperlegible Mono",
   "Source Code Pro"]

/-- One entry of the `COLOR_VISION_THEMES` record. -/
structure ThemeConfig where
  themes : List String
  rationale : String
deriving DecidableEq

/-- `COLOR_VISION_THEMES` from `calculator.ts`. -/
def COLOR_VISION_THEMES : ColorVisionType → ThemeConfig
  | .normal =>
      { themes := []
        rationale := "No specific theme requirements for normal color vision." }
  | .deuteranopia =>
      { themes := ["Solarized Dark", "Solarized Light", "One Dark", "GitHub Dark",
                   "Catppuccin Mocha"]
        rationale := "Blue/yellow color schemes work best as the blue cone pathway is intact. Avoid themes that rely on red/green distinctions for syntax highlighting." }
  | .protanopia =>
      { themes := ["Solarized Dark", "Solarized Light", "Nord", "Tokyo Night"]
        rationale := "Blue-dominant themes work well. Reds will appear very dark, so themes with strong blue/cyan accents are preferred." }
  | .tritanopia =>
      { themes := ["Monokai", "Dracula", "Gruvbox", "Material Theme"]
        rationale := "Warm color schemes (red/green/orange) work best as these cones are intact. Avoid themes with blue/yellow as primary differentiators." }
  | .achromatopsia =>
      { themes := ["High Contrast", "GitHub Light", "Paper"]
        rationale := "Maximum luminance contrast between syntax elements is critical. Monochrome or near-monochrome themes with strong brightness differences." }

/-! ### Number rendering

JavaScript interpolates numbers into template literals and JSON output.
The values this program produces are integers and one-decimal rationals;
`numChars` renders those exactly as JavaScript does and renders any other
rational as `num/den` so that the function stays total and injective. -/

/-- The decimal digit character for `n < 10`. -/
def digitChar (n : ℕ) : Char := Char.ofNat (48 + n)

/-- Decimal digits, with explicit fuel so that the definition is structural
(and hence reduces inside the kernel); the fuel is always sufficient when
it exceeds the number. -/
def natCharsAux : ℕ → ℕ → List Char
  | 0, _ => []
  | fuel + 1, n =>
    if n < 10 then [digitChar n]
    else natCharsAux fuel (n / 10) ++ [digitChar (n % 10)]

/-- Decimal digits of a natural number, most significant first. -/
def natChars (n : ℕ) : List Char := natCharsAux (n + 1) n

/-- Decimal rendering of an integer. -/
def intChars (i : ℤ) : List Char :=
  if i < 0 then '-' :: natChars i.natAbs else natChars i.natAbs

/-- Decimal rendering of a rational, as JavaScript renders the numbers this
program produces: integers bare, one-decimal values as `a.b`; any other
rational (never produced by the program) is rendered as `num/den`. -/
def numChars (q : ℚ) : List Char :=
  if q.den = 1 then intChars q.num
  else if (q * 10).den = 1 then
    (if (q * 10).num < 0 then ['-'] else []) ++
      natChars ((q * 10).num.natAbs / 10) ++ '.' :: natChars ((q * 10).num.natAbs % 10)
  else intChars q.num ++ '/' :: natChars q.den

/-- String form of `numChars`. -/
def renderNum (q : ℚ) : String := String.mk (numChars q)

/-- Floor of a rational, computably (`Int.fdiv` by the positive denominator). -/
def ratFloor (q : ℚ) : ℤ := Int.fdiv q.num (q.den : ℤ)

/-- `Math.round`: round half toward positive infinity. -/
def jround (q : ℚ) : ℤ := ratFloor (q + 1/2)

/-- `Number.prototype.toFixed(2)` on a non-negative rational. -/
def toFixed2Abs (q : ℚ) : String :=
  let n : ℕ := (jround (q * 100)).toNat
  String.mk (natChars (n / 100) ++ '.' :: digitChar (n % 100 / 10) :: [digitChar (n % 10)])

/-- `Number.prototype.toFixed(2)`: the sign is split off first, as in the
ECMAScript specification. -/
def toFixed2 (q : ℚ) : String :=
  if q < 0 then "-" ++ toFixed2Abs (-q) else toFixed2Abs q

/-! ### Prescription processing (lines 131-157 of `calculator.ts`) -/

/-- `avgSphere = (rightEye.sphere + leftEye.sphere) / 2`. -/
def avgSphereOf (p : Prescription) : ℚ :=
  (p.rightEye.sphere + p.leftEye.sphere) / 2

/-- `avgCylinder = abs((rightEye.cylinder + leftEye.cylinder) / 2)`. -/
def avgCylinderOf (p : Prescription) : ℚ :=
  |(p.rightEye.cylinder + p.leftEye.cylinder) / 2|

/-- `astigmatismAxis = (rightEye.axis + leftEye.axis) / 2`. -/
def avgAxisOf (p : Prescription) : ℚ :=
  (p.rightEye.axis + p.leftEye.axis) / 2

/-- The auto-detection writes of lines 147-156: each flag is forced to true
when the prescription implies the condition and the caller left it false.
This is the amended condition record the caller observes after the call. -/
def autoDetect (c : VisualConditions) : Option Prescription → VisualConditions
  | none => c
  | some p =>
    let c1 := if avgSphereOf p < -(1/2) ∧ c.myopia = false then
      { c with myopia := true } else c
    let c2 := if avgSphereOf p > 1/2 ∧ c1.hyperopia = false then
      { c1 with hyperopia := true } else c1
    if avgCylinderOf p ≥ 1/2 ∧ c2.astigmatism = false then
      { c2 with astigmatism := true } else c2

/-! ### The rule sequence (lines 159-365 of `calculator.ts`) -/

/-- The inputs each rule reads: the (amended) conditions, the color-vision
type, the prescription-derived quantities and the optional current
settings. -/
structure Ctx where
  conditions : VisualConditions
  colorVision : ColorVisionType
  avgSphere : ℚ
  astigmatismAxis : ℚ
  currentSettings : Option CurrentSettings
deriving DecidableEq

/-- The mutable locals of `calculateRecommendations`. -/
structure CalcState where
  fontSize : ℚ
  lineHeight : ℚ
  fontWeight : ℚ
  cursorStyle : CursorStyle
  suggestedFonts : List String
  suggestedThemes : List String
  explanations : List String
  research : List ResearchCitation
deriving DecidableEq

/-- Lines 122-129: the research-based base values. -/
def initState : CalcState :=
  { fontSize := 16
    lineHeight := 3/2
    fontWeight := 400
    cursorStyle := .bar
    suggestedFonts := []
    suggestedThemes := []
    explanations := []
    research := [] }

/-- The myopia research citation pushed at line 196. -/
def myopiaCitation : ResearchCitation :=
  { finding := "Font sizes below 16pt cause viewing distances under 33cm, associated with eye strain"
    citedSource := "Wang K, et al. BMJ Open Ophthalmology"
    year := 2023 }

/-- Lines 164-201: the myopia rule (tiered font size, block cursor, one
citation). -/
def myopiaRule (ctx : Ctx) (s : CalcState) : CalcState :=
  if ctx.conditions.myopia then
    let tiered :=
      if ctx.avgSphere ≤ -6 then
        { s with fontSize := 20
                 explanations := s.explanations ++
                   ["High myopia (" ++ toFixed2 ctx.avgSphere ++ "D): Font size increased to 20px. Research shows high myopes benefit from larger text to maintain comfortable viewing distance."] }
      else if ctx.avgSphere ≤ -3 then
        { s with fontSize := 18
                 explanations := s.explanations ++
                   ["Moderate myopia (" ++ toFixed2 ctx.avgSphere ++ "D): Font size set to 18px for optimal acuity reserve."] }
      else
        { s with fontSize := 17
                 explanations := s.explanations ++
                   ["Mild myopia detected: Font size set to 17px, exceeding the 16pt minimum recommended by Peking University research for maintaining >33cm viewing distance."] }
    { tiered with
        cursorStyle := .block
        explanations := tiered.explanations ++
          ["Block cursor recommended: Higher visibility helps with line tracking, particularly beneficial for myopic users who may have reduced contrast sensitivity."]
        research := tiered.research ++ [myopiaCitation] }
  else s

/-- Lines 203-210: the hyperopia rule. -/
def hyperopiaRule (ctx : Ctx) (s : CalcState) : CalcState :=
  if ctx.conditions.hyperopia then
    { s with
        fontSize := max s.fontSize 17
        lineHeight := max s.lineHeight (8/5)
        explanations := s.explanations ++
          ["Hyperopia detected: Increased font size and line height reduce accommodation demand for near work."] }
  else s

/-- Lines 221-229: the axis-classification note of the astigmatism rule. -/
def axisNoteOf (axis : ℚ) : String :=
  if axis ≥ 160 ∨ axis ≤ 20 then
    " Your with-the-rule astigmatism (horizontal axis) causes less degradation for Roman letters."
  else if axis ≥ 70 ∧ axis ≤ 110 then
    " Against-the-rule astigmatism may cause more difficulty with vertical letter strokes."
  else
    " Oblique astigmatism can cause the most letter recognition difficulty."

/-- Lines 217-247: the astigmatism rule. -/
def astigmatismRule (ctx : Ctx) (s : CalcState) : CalcState :=
  if ctx.conditions.astigmatism then
    { s with
        lineHeight := max s.lineHeight (8/5)
        suggestedFonts := ASTIGMATISM_FRIENDLY_FONTS
        explanations := s.explanations ++
          ["Astigmatism: Line height increased to 1.6× to reduce line-to-line blur." ++
            axisNoteOf ctx.astigmatismAxis ++
            " Fonts with clear letterforms and wider spacing recommended."]
        research := s.research ++
          [{ finding := "Astigmatic blur interacts with typography - letter shape and axis orientation affect readability"
             citedSource := "PMC6181807 - Astigmatic axis and visual acuity"
             year := 2018 },
           { finding := "0.5-1.0D uncorrected astigmatism significantly increases digital eye strain symptoms"
             citedSource := "Rosenfield M. Ophthalmic and Physiological Optics"
             year := 2016 }] }
  else s

/-- Lines 249-262: the eye-strain rule (`max(fontSize, fontSize + 1)`). -/
def eyeStrainRule (ctx : Ctx) (s : CalcState) : CalcState :=
  if ctx.conditions.eyeStrain then
    { s with
        fontSize := max s.fontSize (s.fontSize + 1)
        lineHeight := max s.lineHeight (8/5)
        explanations := s.explanations ++
          ["Eye strain: Larger font sizes reduce accommodation lag, a primary cause of eye strain. Research shows accommodation lag is worse with smaller fonts."]
        research := s.research ++
          [{ finding := "Larger font sizes significantly reduce accommodation lag and improve eye function"
             citedSource := "Nanotechnology Perceptions - Font Size and Accommodation"
             year := 2024 }] }
  else s

/-- Lines 264-281: the blur/ghosting rule; the weight increase is skipped
when light sensitivity is also set. -/
def blurOrGhostingRule (ctx : Ctx) (s : CalcState) : CalcState :=
  if ctx.conditions.blurOrGhosting then
    let s1 := { s with
      fontSize := max s.fontSize (s.fontSize + 1)
      cursorStyle := CursorStyle.block }
    if ctx.conditions.lightSensitivity = false then
      { s1 with
          fontWeight := 500
          explanations := s1.explanations ++
            ["Blur/ghosting: Font weight increased to 500 (medium) for better edge definition. Block cursor provides clearer position indicator."] }
    else
      { s1 with
          explanations := s1.explanations ++
            ["Blur/ghosting with light sensitivity: Font weight kept at 400 to avoid increased brightness from heavier strokes. Block cursor still recommended."] }
  else s

/-- Lines 283-290: the light-sensitivity rule; unconditionally resets the
weight to 400. -/
def lightSensitivityRule (ctx : Ctx) (s : CalcState) : CalcState :=
  if ctx.conditions.lightSensitivity then
    { s with
        fontWeight := 400
        explanations := s.explanations ++
          ["Light sensitivity: Font weight capped at 400 (regular). Heavier weights increase perceived brightness and can worsen symptoms."] }
  else s

/-- Lines 292-309: the visual-crowding rule. -/
def visualCrowdingRule (ctx : Ctx) (s : CalcState) : CalcState :=
  if ctx.conditions.visualCrowding then
    let s1 := { s with lineHeight := max s.lineHeight (17/10) }
    let s2 := if s1.suggestedFonts = [] then
      { s1 with suggestedFonts := ASTIGMATISM_FRIENDLY_FONTS.take 3 } else s1
    { s2 with
        explanations := s2.explanations ++
          ["Visual crowding: Line height increased to 1.7× to reduce interference between lines. Fonts with wider default spacing recommended."]
        research := s2.research ++
          [{ finding := "Increased line spacing reduces crowding effects and improves reading in peripheral vision"
             citedSource := "Chung STL. Optometry and Vision Science"
             year := 2004 }] }
  else s

/-- Lines 315-325: the color-vision rule. -/
def colorVisionRule (ctx : Ctx) (s : CalcState) : CalcState :=
  if ctx.colorVision ≠ ColorVisionType.normal then
    let colorConfig := COLOR_VISION_THEMES ctx.colorVision
    { s with
        suggestedThemes := colorConfig.themes
        explanations := s.explanations ++
          ["Color vision (" ++ cvString ctx.colorVision ++ "): " ++ colorConfig.rationale]
        research := s.research ++
          [{ finding := "Blue/orange palettes work well for red-green CVD as they rely on intact blue cone pathway"
             citedSource := "WCAG 2.1 / Interaction Design Foundation"
             year := 2023 }] }
  else s

/-- Lines 333-341: the current-settings comparison (explanation only). -/
def currentSettingsRule (ctx : Ctx) (s : CalcState) : CalcState :=
  match ctx.currentSettings with
  | some cs =>
    if cs.fontSize < s.fontSize then
      { s with explanations := s.explanations ++
          ["Your current font size (" ++ renderNum cs.fontSize ++ "px) is below the recommended " ++ renderNum s.fontSize ++ "px for your conditions. The 3:1 acuity reserve principle suggests text should be at least 3× larger than your barely-readable threshold for maximum reading speed."] }
    else s
  | none => s

/-- Lines 343-354: the unconditional final citation and the 20-20-20
reminder. -/
def finalNotesRule (_ctx : Ctx) (s : CalcState) : CalcState :=
  { s with
      research := s.research ++
        [{ finding := "Reading speed and accuracy peak at 1.2-1.5× line height; eye strain reduced at 1.5×+"
           citedSource := "Nielsen Norman Group / Journal of Experimental Psychology"
           year := 2023 }]
      explanations := s.explanations ++
        ["Remember the 20-20-20 rule: Every 20 minutes, look at something 20 feet away for 20 seconds. Research shows 30-40 minutes of continuous near work without breaks increases eye strain risk."] }

/-- The fixed rule order of `calculateRecommendations`. -/
def ruleSequence (ctx : Ctx) : List (CalcState → CalcState) :=
  [myopiaRule ctx, hyperopiaRule ctx, astigmatismRule ctx, eyeStrainRule ctx,
   blurOrGhostingRule ctx, lightSensitivityRule ctx, visualCrowdingRule ctx,
   colorVisionRule ctx, currentSettingsRule ctx, finalNotesRule ctx]

/-- The context built from the inputs: the conditions amended by
auto-detection, and the prescription-derived quantities (0 when no
prescription is supplied, lines 131-134). -/
def mkCtx (c : VisualConditions) (colorVision : ColorVisionType)
    (p? : Option Prescription) (cs? : Option CurrentSettings) : Ctx :=
  { conditions := autoDetect c p?
    colorVision := colorVision
    avgSphere := match p? with | some p => avgSphereOf p | none => 0
    astigmatismAxis := match p? with | some p => avgAxisOf p | none => 0
    currentSettings := cs? }

/-- Lines 356-365: the final rounding (font size to the nearest integer,
line height to the nearest tenth). -/
def finalize (s : CalcState) : Recommendation :=
  { fontSize := (jround s.fontSize : ℚ)
    lineHeight := (jround (s.lineHeight * 10) : ℚ) / 10
    fontWeight := s.fontWeight
    cursorStyle := s.cursorStyle
    suggestedFonts := s.suggestedFonts
    suggestedThemes := s.suggestedThemes
    explanations := s.explanations
    research := s.research }

/-- `calculateRecommendations` from `calculator.ts`.  The second component
is the amended condition record that the source produces by mutating the
caller's object. -/
def calculateRecommendations (c : VisualConditions) (colorVision : ColorVisionType)
    (p? : Option Prescription) (cs? : Option CurrentSettings) :
    Recommendation × VisualConditions :=
  let ctx := mkCtx c colorVision p? cs?
  (finalize ((ruleSequence ctx).foldl (fun s f => f s) initState), ctx.conditions)

/-! ### Config serializer (`generateEditorConfig`, lines 368-447)

The three structured outputs are produced by `JSON.stringify(obj, null, 2)`
on object literals whose values are numbers, strings, or (for zed) one
nested object of atoms.  The object literals are embedded as ordered
key/value lists and the stringifier below reproduces the two-space-indent
layout of `JSON.stringify`. -/

/-- Lowercase hexadecimal digit. -/
def hexChar (n : ℕ) : Char :=
  if n < 10 then digitChar n else Char.ofNat (87 + n)

/-- The escape `JSON.stringify` applies to one character inside a string. -/
def jsonEscapeChar (c : Char) : List Char :=
  if c = '"' then ['\\', '"']
  else if c = '\\' then ['\\', '\\']
  else if c = '\n' then ['\\', 'n']
  else if c = '\r' then ['\\', 'r']
  else if c = '\t' then ['\\', 't']
  else if c = '\x08' then ['\\', 'b']
  else if c = '\x0c' then ['\\', 'f']
  else if c.toNat < 32 then
    '\\' :: 'u' :: '0' :: '0' :: hexChar (c.toNat / 16) :: [hexChar (c.toNat % 16)]
  else [c]

/-- `JSON.stringify` string escaping. -/
def jsonEscape (s : String) : String := String.mk (s.data.flatMap jsonEscapeChar)

/-- An atomic JSON value of this program (number or string). -/
inductive JAtom where
  | num (q : ℚ)
  | str (s : String)
deriving DecidableEq

/-- A JSON value of this program: an atom, or one nested object of atoms
(zed's `buffer_line_height`). -/
inductive JVal where
  | atom (a : JAtom)
  | obj (fields : List (String × JAtom))
deriving DecidableEq

/-- Rendering of an atomic value. -/
def renderAtom : JAtom → String
  | .num q => renderNum q
  | .str s => "\"" ++ jsonEscape s ++ "\""

/-- Join a list of strings with a separator (helper for the stringifier). -/
def joinSep (sep : String) : List String → String
  | [] => ""
  | [x] => x
  | x :: y :: rest => x ++ sep ++ joinSep sep (y :: rest)

/-- Rendering of a JSON value whose own lines are indented by `ind`. -/
def renderJVal (ind : ℕ) : JVal → String
  | .atom a => renderAtom a
  | .obj [] => "\x7b\x7d"
  | .obj fields =>
    "\x7b\n" ++
      joinSep ",\n" (fields.map fun kv =>
        String.mk (List.replicate (ind + 2) ' ') ++
          "\"" ++ jsonEscape kv.1 ++ "\": " ++ renderAtom kv.2) ++
      "\n" ++ String.mk (List.replicate ind ' ') ++ "\x7d"

/-- `JSON.stringify(obj, null, 2)` for a top-level object. -/
def jsonStringify : List (String × JVal) → String
  | [] => "\x7b\x7d"
  | fields =>
    "\x7b\n" ++
      joinSep ",\n" (fields.map fun kv =>
        "  \"" ++ jsonEscape kv.1 ++ "\": " ++ renderJVal 2 kv.2) ++
      "\n\x7d"

/-- Line 378: `const font = suggestedFonts[0] || 'JetBrains Mono'` — the
default is also taken when the first entry is the empty string, because
the empty string is falsy. -/
def fontOf (r : Recommendation) : String :=
  match r.suggestedFonts.head? with
  | some f => if f = "" then "JetBrains Mono" else f
  | none => "JetBrains Mono"

/-- Line 379: `const theme = suggestedThemes[0]` (`none` = `undefined`). -/
def themeOf (r : Recommendation) : Option String := r.suggestedThemes.head?

/-- The conditional spread `...(theme && { key: theme })`: no field when
`theme` is `undefined` or falsy (the empty string). -/
def themeField (key : String) (t? : Option String) (val : String → JVal) :
    List (String × JVal) :=
  match t? with
  | some t => if t = "" then [] else [(key, val t)]
  | none => []

/-- The vscode object literal (lines 383-390). -/
def vscodeFields (r : Recommendation) : List (String × JVal) :=
  [("editor.fontSize", .atom (.num r.fontSize)),
   ("editor.lineHeight", .atom (.num r.lineHeight)),
   ("editor.fontWeight", .atom (.str (renderNum r.fontWeight))),
   ("editor.cursorStyle", .atom (.str (cursorString r.cursorStyle))),
   ("editor.fontFamily", .atom (.str ("\x27" ++ fontOf r ++ "\x27, \x27Fira Code\x27, Consolas, monospace")))] ++
  themeField "workbench.colorTheme" (themeOf r) (fun t => .atom (.str t))

/-- The zed object literal (lines 393-400). -/
def zedFields (r : Recommendation) : List (String × JVal) :=
  [("buffer_font_size", .atom (.num r.fontSize)),
   ("buffer_line_height", .obj [("custom", .num r.lineHeight)]),
   ("buffer_font_weight", .atom (.num r.fontWeight)),
   ("cursor_shape", .atom (.str (cursorString r.cursorStyle))),
   ("buffer_font_family", .atom (.str (fontOf r)))] ++
  themeField "theme" (themeOf r) (fun t => .atom (.str t))

/-- The sublime object literal (lines 419-426).  Note that it carries no
font-weight field at all, and both `bar` and `underline` map to the caret
style `smooth`. -/
def sublimeFields (r : Recommendation) : List (String × JVal) :=
  [("font_face", .atom (.str (fontOf r))),
   ("font_size", .atom (.num r.fontSize)),
   ("line_padding_top", .atom (.num (jround ((r.lineHeight - 1) * r.fontSize / 2) : ℚ))),
   ("line_padding_bottom", .atom (.num (jround ((r.lineHeight - 1) * r.fontSize / 2) : ℚ))),
   ("caret_style", .atom (.str (if r.cursorStyle = CursorStyle.block then "solid" else "smooth")))] ++
  themeField "color_scheme" (themeOf r)
    (fun t => .atom (.str ("Packages/Theme/" ++ t ++ ".tmTheme")))

/-- The generic fallback object of the `default` switch arm (lines
429-436); an `undefined` theme is omitted by `JSON.stringify`, but an
empty-string theme is kept. -/
def fallbackFields (r : Recommendation) : List (String × JVal) :=
  [("fontSize", .atom (.num r.fontSize)),
   ("lineHeight", .atom (.num r.lineHeight)),
   ("fontWeight", .atom (.num r.fontWeight)),
   ("cursorStyle", .atom (.str (cursorString r.cursorStyle))),
   ("font", .atom (.str (fontOf r)))] ++
  (match themeOf r with
   | some t => [("theme", JVal.atom (.str t))]
   | none => [])

/-- `theme.toLowerCase().replace(/\s+/g, '-')`: lowercase, then replace
each whitespace run by a single hyphen. -/
def collapseWs : List Char → List Char
  | [] => []
  | [c] => if c.isWhitespace then ['-'] else [c]
  | c :: d :: rest =>
    if c.isWhitespace then
      (if d.isWhitespace then collapseWs (d :: rest) else '-' :: collapseWs (d :: rest))
    else c :: collapseWs (d :: rest)

/-- The neovim theme line `${theme ? ... : ''}` (line 407). -/
def neovimThemeLine (t? : Option String) : String :=
  match t? with
  | some t =>
    if t = "" then ""
    else "vim.cmd(\"colorscheme " ++ String.mk (collapseWs (t.map Char.toLower).data) ++ "\")"
  | none => ""

/-- The neovim template without its final theme line (lines 403-406). -/
def neovimMain (r : Recommendation) : String :=
  "-- Vision-optimized settings\nvim.opt.guifont = \"" ++ fontOf r ++ ":h" ++
    renderNum r.fontSize ++ "\"\nvim.opt.linespace = " ++
    renderNum (jround ((r.lineHeight - 1) * r.fontSize) : ℚ) ++
    "\nvim.opt.guicursor = \"n-v-c:" ++
    (if r.cursorStyle = CursorStyle.bar then "ver25" else cursorString r.cursorStyle) ++
    "\"\n"

/-- The jetbrains theme line `${theme ? ... : ''}` (line 416). -/
def jetbrainsThemeLine (t? : Option String) : String :=
  match t? with
  | some t => if t = "" then "" else "Theme: " ++ t
  | none => ""

/-- The jetbrains template without its final theme line (lines 410-415). -/
def jetbrainsMain (r : Recommendation) : String :=
  "// JetBrains IDE Settings\n// Settings → Editor → Font\nFont: " ++ fontOf r ++
    "\nSize: " ++ renderNum r.fontSize ++ "\nLine spacing: " ++ renderNum r.lineHeight ++
    "\n// Settings → Editor → Color Scheme\n"

/-- `generateEditorConfig` from `calculator.ts`.  The editor identifier is
modelled as a plain string so that the `default` arm of the `switch` is
reachable, exactly as for an out-of-enumeration value at runtime. -/
def generateEditorConfig (r : Recommendation) (editor : String) : String :=
  if editor = "vscode" then jsonStringify (vscodeFields r)
  else if editor = "zed" then jsonStringify (zedFields r)
  else if editor = "neovim" then neovimMain r ++ neovimThemeLine (themeOf r)
  else if editor = "jetbrains" then jetbrainsMain r ++ jetbrainsThemeLine (themeOf r)
  else if editor = "sublime" then jsonStringify (sublimeFields r)
  else jsonStringify (fallbackFields r)

/-- `getRecommendationSummary` from `calculator.ts`. -/
def getRecommendationSummary (r : Recommendation) : String :=
  "Font: " ++ renderNum r.fontSize ++ "px | Line Height: " ++ renderNum r.lineHeight ++
    " | Weight: " ++ renderNum r.fontWeight ++ " | Cursor: " ++ cursorString r.cursorStyle

/-! ### Facts about the decimal rendering -/

theorem natCharsAux_irrel : ∀ (f1 f2 n : ℕ), n < f1 → n < f2 →
    natCharsAux f1 n = natCharsAux f2 n := by
  intro f1
  induction f1 with
  | zero => intro f2 n h1 _; omega
  | succ f ih =>
    intro f2 n h1 h2
    cases f2 with
    | zero => omega
    | succ g =>
      simp only [natCharsAux]
      by_cases h : n < 10
      · simp [h]
      · have hd : n / 10 < n := Nat.div_lt_self (by omega) (by omega)
        rw [if_neg h, if_neg h, ih g (n / 10) (by omega) (by omega)]

theorem natChars_lt (n : ℕ) (h : n < 10) : natChars n = [digitChar n] := by
  simp [natChars, natCharsAux, h]

theorem natChars_ge (n : ℕ) (h : 10 ≤ n) :
    natChars n = natChars (n / 10) ++ [digitChar (n % 10)] := by
  have hd : n / 10 < n := Nat.div_lt_self (by omega) (by omega)
  simp only [natChars, natCharsAux]
  rw [if_neg (by omega)]
  congr 1
  exact natCharsAux_irrel n (n / 10 + 1) (n / 10) (by omega) (by omega)

theorem digitChar_isDigit (n : ℕ) (h : n < 10) : (digitChar n).isDigit = true := by
  interval_cases n <;> decide

theorem natChars_digits (n : ℕ) : ∀ c ∈ natChars n, c.isDigit = true := by
  induction n using Nat.strong_induction_on with
  | _ n ih =>
    by_cases h : n < 10
    · rw [natChars_lt n h]
      intro c hc
      simp only [List.mem_singleton] at hc
      subst hc
      exact digitChar_isDigit n h
    · rw [natChars_ge n (by omega)]
      intro c hc
      rcases List.mem_append.mp hc with h1 | h2
      · exact ih (n / 10) (Nat.div_lt_self (by omega) (by omega)) c h1
      · simp only [List.mem_singleton] at h2
        subst h2
        exact digitChar_isDigit _ (Nat.mod_lt _ (by omega))

theorem natChars_ne_nil (n : ℕ) : natChars n ≠ [] := by
  by_cases h : n < 10
  · rw [natChars_lt n h]; simp
  · rw [natChars_ge n (by omega)]; simp

/-- A decimal digit is none of the delimiter characters the serializers
and parsers below care about. -/
theorem digit_not_special (c : Char) (h : c.isDigit = true) :
    c ≠ ',' ∧ c ≠ '"' ∧ c ≠ '\n' ∧ c ≠ '.' ∧ c ≠ '/' ∧ c ≠ '-' := by
  refine ⟨?_, ?_, ?_, ?_, ?_, ?_⟩ <;> (rintro rfl; exact absurd h (by decide))

/-- Character class of `numChars`: digits, minus sign, decimal point or
fraction slash only. -/
theorem numChars_chars (q : ℚ) :
    ∀ c ∈ numChars q, c.isDigit = true ∨ c = '-' ∨ c = '.' ∨ c = '/' := by
  intro c hc
  unfold numChars at hc
  split at hc
  · unfold intChars at hc
    split at hc
    · rcases List.mem_cons.mp hc with h | h
      · exact Or.inr (Or.inl h)
      · exact Or.inl (natChars_digits _ c h)
    · exact Or.inl (natChars_digits _ c hc)
  · split at hc
    · rcases List.mem_append.mp hc with h | h
      · rcases List.mem_append.mp h with h | h
        · split at h
          · simp only [List.mem_singleton] at h; exact Or.inr (Or.inl h)
          · simp at h
        · exact Or.inl (natChars_digits _ c h)
      · rcases List.mem_cons.mp h with h | h
        · exact Or.inr (Or.inr (Or.inl h))
        · exact Or.inl (natChars_digits _ c h)
    · rcases List.mem_append.mp hc with h | h
      · unfold intChars at h
        split at h
        · rcases List.mem_cons.mp h with h | h
          · exact Or.inr (Or.inl h)
          · exact Or.inl (natChars_digits _ c h)
        · exact Or.inl (natChars_digits _ c h)
      · rcases List.mem_cons.mp h with h | h
        · exact Or.inr (Or.inr (Or.inr h))
        · exact Or.inl (natChars_digits _ c h)

/-! ### Field behaviour of the individual rules -/

theorem myopiaRule_themes (ctx : Ctx) (s : CalcState) :
    (myopiaRule ctx s).suggestedThemes = s.suggestedThemes := by
  unfold myopiaRule; (try dsimp only); split_ifs <;> rfl

theorem hyperopiaRule_themes (ctx : Ctx) (s : CalcState) :
    (hyperopiaRule ctx s).suggestedThemes = s.suggestedThemes := by
  unfold hyperopiaRule; (try dsimp only); split_ifs <;> rfl

theorem astigmatismRule_themes (ctx : Ctx) (s : CalcState) :
    (astigmatismRule ctx s).suggestedThemes = s.suggestedThemes := by
  unfold astigmatismRule; (try dsimp only); split_ifs <;> rfl

theorem eyeStrainRule_themes (ctx : Ctx) (s : CalcState) :
    (eyeStrainRule ctx s).suggestedThemes = s.suggestedThemes := by
  unfold eyeStrainRule; (try dsimp only); split_ifs <;> rfl

theorem blurOrGhostingRule_themes (ctx : Ctx) (s : CalcState) :
    (blurOrGhostingRule ctx s).suggestedThemes = s.suggestedThemes := by
  unfold blurOrGhostingRule; (try dsimp only); split_ifs <;> rfl

theorem lightSensitivityRule_themes (ctx : Ctx) (s : CalcState) :
    (lightSensitivityRule ctx s).suggestedThemes = s.suggestedThemes := by
  unfold lightSensitivityRule; (try dsimp only); split_ifs <;> rfl

theorem visualCrowdingRule_themes (ctx : Ctx) (s : CalcState) :
    (visualCrowdingRule ctx s).suggestedThemes = s.suggestedThemes := by
  unfold visualCrowdingRule; (try dsimp only); split_ifs <;> rfl

theorem colorVisionRule_themes (ctx : Ctx) (s : CalcState) :
    (colorVisionRule ctx s).suggestedThemes =
      (if ctx.colorVision ≠ ColorVisionType.normal
       then (COLOR_VISION_THEMES ctx.colorVision).themes else s.suggestedThemes) := by
  unfold colorVisionRule; (try dsimp only); split_ifs <;> rfl

theorem currentSettingsRule_themes (ctx : Ctx) (s : CalcState) :
    (currentSettingsRule ctx s).suggestedThemes = s.suggestedThemes := by
  unfold currentSettingsRule
  cases ctx.currentSettings <;> (try dsimp only) <;> (first | rfl | (split_ifs <;> rfl))

theorem finalNotesRule_themes (ctx : Ctx) (s : CalcState) :
    (finalNotesRule ctx s).suggestedThemes = s.suggestedThemes := rfl

theorem myopiaRule_cursor (ctx : Ctx) (s : CalcState) :
    (myopiaRule ctx s).cursorStyle =
      (if ctx.conditions.myopia then CursorStyle.block else s.cursorStyle) := by
  unfold myopiaRule; (try dsimp only); split_ifs <;> rfl

theorem hyperopiaRule_cursor (ctx : Ctx) (s : CalcState) :
    (hyperopiaRule ctx s).cursorStyle = s.cursorStyle := by
  unfold hyperopiaRule; (try dsimp only); split_ifs <;> rfl

theorem astigmatismRule_cursor (ctx : Ctx) (s : CalcState) :
    (astigmatismRule ctx s).cursorStyle = s.cursorStyle := by
  unfold astigmatismRule; (try dsimp only); split_ifs <;> rfl

theorem eyeStrainRule_cursor (ctx : Ctx) (s : CalcState) :
    (eyeStrainRule ctx s).cursorStyle = s.cursorStyle := by
  unfold eyeStrainRule; (try dsimp only); split_ifs <;> rfl

theorem blurOrGhostingRule_cursor (ctx : Ctx) (s : CalcState) :
    (blurOrGhostingRule ctx s).cursorStyle =
      (if ctx.conditions.blurOrGhosting then CursorStyle.block else s.cursorStyle) := by
  unfold blurOrGhostingRule; (try dsimp only); split_ifs <;> rfl

theorem lightSensitivityRule_cursor (ctx : Ctx) (s : CalcState) :
    (lightSensitivityRule ctx s).cursorStyle = s.cursorStyle := by
  unfold lightSensitivityRule; (try dsimp only); split_ifs <;> rfl

theorem visualCrowdingRule_cursor (ctx : Ctx) (s : CalcState) :
    (visualCrowdingRule ctx s).cursorStyle = s.cursorStyle := by
  unfold visualCrowdingRule; (try dsimp only); split_ifs <;> rfl

theorem colorVisionRule_cursor (ctx : Ctx) (s : CalcState) :
    (colorVisionRule ctx s).cursorStyle = s.cursorStyle := by
  unfold colorVisionRule; (try dsimp only); split_ifs <;> rfl

theorem currentSettingsRule_cursor (ctx : Ctx) (s : CalcState) :
    (currentSettingsRule ctx s).cursorStyle = s.cursorStyle := by
  unfold currentSettingsRule
  cases ctx.currentSettings <;> (try dsimp only) <;> (first | rfl | (split_ifs <;> rfl))

theorem finalNotesRule_cursor (ctx : Ctx) (s : CalcState) :
    (finalNotesRule ctx s).cursorStyle = s.cursorStyle := rfl

theorem lightSensitivityRule_weight (ctx : Ctx) (s : CalcState) :
    (lightSensitivityRule ctx s).fontWeight =
      (if ctx.conditions.lightSensitivity then (400 : ℚ) else s.fontWeight) := by
  unfold lightSensitivityRule; (try dsimp only); split_ifs <;> rfl

theorem visualCrowdingRule_weight (ctx : Ctx) (s : CalcState) :
    (visualCrowdingRule ctx s).fontWeight = s.fontWeight := by
  unfold visualCrowdingRule; (try dsimp only); split_ifs <;> rfl

theorem colorVisionRule_weight (ctx : Ctx) (s : CalcState) :
    (colorVisionRule ctx s).fontWeight = s.fontWeight := by
  unfold colorVisionRule; (try dsimp only); split_ifs <;> rfl

theorem currentSettingsRule_weight (ctx : Ctx) (s : CalcState) :
    (currentSettingsRule ctx s).fontWeight = s.fontWeight := by
  unfold currentSettingsRule
  cases ctx.currentSettings <;> (try dsimp only) <;> (first | rfl | (split_ifs <;> rfl))

theorem finalNotesRule_weight (ctx : Ctx) (s : CalcState) :
    (finalNotesRule ctx s).fontWeight = s.fontWeight := rfl

/-! ### Behaviour of the auto-detection on the untouched flags -/

theorem autoDetect_eyeStrain (c : VisualConditions) (p? : Option Prescription) :
    (autoDetect c p?).eyeStrain = c.eyeStrain := by
  cases p? <;> unfold autoDetect <;> (try dsimp only) <;> (first | rfl | (split_ifs <;> rfl))

theorem autoDetect_blur (c : VisualConditions) (p? : Option Prescription) :
    (autoDetect c p?).blurOrGhosting = c.blurOrGhosting := by
  cases p? <;> unfold autoDetect <;> (try dsimp only) <;> (first | rfl | (split_ifs <;> rfl))

theorem autoDetect_light (c : VisualConditions) (p? : Option Prescription) :
    (autoDetect c p?).lightSensitivity = c.lightSensitivity := by
  cases p? <;> unfold autoDetect <;> (try dsimp only) <;> (first | rfl | (split_ifs <;> rfl))

theorem autoDetect_crowding (c : VisualConditions) (p? : Option Prescription) :
    (autoDetect c p?).visualCrowding = c.visualCrowding := by
  cases p? <;> unfold autoDetect <;> (try dsimp only) <;> (first | rfl | (split_ifs <;> rfl))

theorem autoDetect_myopia (c : VisualConditions) (p : Prescription) :
    (autoDetect c (some p)).myopia = (c.myopia || decide (avgSphereOf p < -(1/2))) := by
  unfold autoDetect
  dsimp only
  split_ifs with h1 h2 h3
  all_goals (cases hm : c.myopia <;> simp_all)

theorem autoDetect_hyperopia (c : VisualConditions) (p : Prescription) :
    (autoDetect c (some p)).hyperopia = (c.hyperopia || decide (avgSphereOf p > 1/2)) := by
  unfold autoDetect
  dsimp only
  split_ifs
  all_goals (cases hm : c.hyperopia <;> simp_all)

theorem autoDetect_astigmatism (c : VisualConditions) (p : Prescription) :
    (autoDetect c (some p)).astigmatism = (c.astigmatism || decide (avgCylinderOf p ≥ 1/2)) := by
  unfold autoDetect
  dsimp only
  split_ifs
  all_goals (cases hm : c.astigmatism <;> simp_all)

theorem calcRecommendations_snd (c : VisualConditions) (cv : ColorVisionType)
    (p? : Option Prescription) (cs? : Option CurrentSettings) :
    (calculateRecommendations c cv p? cs?).2 = autoDetect c p? := rfl

/-! ### Monotone facts about the rule sequence -/

theorem ruleSequence_lineHeight_mono (ctx : Ctx) :
    ∀ f ∈ ruleSequence ctx, ∀ s : CalcState, s.lineHeight ≤ (f s).lineHeight := by
  intro f hf s
  simp only [ruleSequence, List.mem_cons, List.not_mem_nil, or_false] at hf
  rcases hf with rfl | rfl | rfl | rfl | rfl | rfl | rfl | rfl | rfl | rfl
  · unfold myopiaRule; (try dsimp only); split_ifs <;> simp
  · unfold hyperopiaRule; (try dsimp only); split_ifs <;> simp [le_max_iff]
  · unfold astigmatismRule; (try dsimp only); split_ifs <;> simp [le_max_iff]
  · unfold eyeStrainRule; (try dsimp only); split_ifs <;> simp [le_max_iff]
  · unfold blurOrGhostingRule; (try dsimp only); split_ifs <;> simp
  · unfold lightSensitivityRule; (try dsimp only); split_ifs <;> simp
  · unfold visualCrowdingRule; (try dsimp only); split_ifs <;> simp [le_max_iff]
  · unfold colorVisionRule; (try dsimp only); split_ifs <;> simp
  · unfold currentSettingsRule
    cases ctx.currentSettings <;> (try dsimp only) <;> (try split_ifs) <;> simp
  · simp [finalNotesRule]

theorem ruleSequence_fontSize_floor (ctx : Ctx) :
    ∀ f ∈ ruleSequence ctx, ∀ s : CalcState, 16 ≤ s.fontSize → 16 ≤ (f s).fontSize := by
  intro f hf s hs
  simp only [ruleSequence, List.mem_cons, List.not_mem_nil, or_false] at hf
  rcases hf with rfl | rfl | rfl | rfl | rfl | rfl | rfl | rfl | rfl | rfl
  · unfold myopiaRule; (try dsimp only); split_ifs <;> (first | exact hs | norm_num)
  · unfold hyperopiaRule; (try dsimp only); split_ifs <;>
      (first | exact hs | simp [le_max_iff] <;> first | (exact Or.inl hs) | linarith)
  · unfold astigmatismRule; (try dsimp only); split_ifs <;> exact hs
  · unfold eyeStrainRule; (try dsimp only); split_ifs <;>
      (first | exact hs | simp [le_max_iff] <;> first | (exact Or.inl hs) | linarith)
  · unfold blurOrGhostingRule; (try dsimp only); split_ifs <;>
      (first | exact hs | simp [le_max_iff] <;> first | (exact Or.inl hs) | linarith)
  · unfold lightSensitivityRule; (try dsimp only); split_ifs <;> exact hs
  · unfold visualCrowdingRule; (try dsimp only); split_ifs <;> exact hs
  · unfold colorVisionRule; (try dsimp only); split_ifs <;> exact hs
  · unfold currentSettingsRule
    cases ctx.currentSettings <;> (try dsimp only) <;> (try split_ifs) <;> exact hs
  · exact hs

theorem foldl_rules_invariant (P : CalcState → Prop) :
    ∀ rules : List (CalcState → CalcState), (∀ f ∈ rules, ∀ s, P s → P (f s)) →
      ∀ s, P s → P (rules.foldl (fun t f => f t) s) := by
  intro rules
  induction rules with
  | nil => intro _ s hs; simpa using hs
  | cons f fs ih =>
    intro h s hs
    simp only [List.foldl_cons]
    exact ih (fun g hg => h g (List.mem_cons_of_mem f hg)) (f s)
      (h f (List.mem_cons_self f fs) s hs)

theorem scanl_head (f : CalcState → (CalcState → CalcState) → CalcState)
    (b : CalcState) (l : List (CalcState → CalcState)) :
    (List.scanl f b l).head? = some b := by
  cases l <;> simp [List.scanl]

theorem chain'_scanl_lineHeight :
    ∀ rules : List (CalcState → CalcState),
      (∀ f ∈ rules, ∀ s : CalcState, s.lineHeight ≤ (f s).lineHeight) →
      ∀ s, List.Chain' (fun a b : CalcState => a.lineHeight ≤ b.lineHeight)
        (List.scanl (fun t f => f t) s rules) := by
  intro rules
  induction rules with
  | nil => intro _ s; simp
  | cons f fs ih =>
    intro h s
    rw [List.scanl_cons]
    simp only [List.singleton_append]
    rw [List.chain'_cons']
    refine ⟨?_, ih (fun g hg s' => h g (List.mem_cons_of_mem f hg) s') (f s)⟩
    intro y hy
    rw [scanl_head] at hy
    simp only [Option.mem_some_iff] at hy
    subst hy
    exact h f (List.mem_cons_self f fs) s

theorem ratFloor_eq (q : ℚ) : ratFloor q = ⌊q⌋ := by
  unfold ratFloor
  rw [Rat.floor_def]
  exact Int.fdiv_eq_ediv _ (by positivity)

theorem le_jround (n : ℤ) (q : ℚ) (h : (n : ℚ) + 1/2 ≤ q + 1/2) : n ≤ jround q := by
  unfold jround
  rw [ratFloor_eq]
  exact Int.le_floor.mpr (by push_cast at h ⊢; linarith)

/-! ### Projections of the final result -/

theorem calc_suggestedThemes (c : VisualConditions) (cv : ColorVisionType)
    (p? : Option Prescription) (cs? : Option CurrentSettings) :
    (calculateRecommendations c cv p? cs?).1.suggestedThemes =
      (if cv ≠ ColorVisionType.normal then (COLOR_VISION_THEMES cv).themes else []) := by
  simp only [calculateRecommendations, ruleSequence, List.foldl, finalize]
  rw [finalNotesRule_themes, currentSettingsRule_themes, colorVisionRule_themes,
      visualCrowdingRule_themes, lightSensitivityRule_themes, blurOrGhostingRule_themes,
      eyeStrainRule_themes, astigmatismRule_themes, hyperopiaRule_themes, myopiaRule_themes]
  simp [mkCtx, initState]

theorem calc_cursorStyle (c : VisualConditions) (cv : ColorVisionType)
    (p? : Option Prescription) (cs? : Option CurrentSettings) :
    (calculateRecommendations c cv p? cs?).1.cursorStyle =
      (if (autoDetect c p?).myopia = true ∨ (autoDetect c p?).blurOrGhosting = true
       then CursorStyle.block else CursorStyle.bar) := by
  simp only [calculateRecommendations, ruleSequence, List.foldl, finalize]
  rw [finalNotesRule_cursor, currentSettingsRule_cursor, colorVisionRule_cursor,
      visualCrowdingRule_cursor, lightSensitivityRule_cursor, blurOrGhostingRule_cursor,
      eyeStrainRule_cursor, astigmatismRule_cursor, hyperopiaRule_cursor, myopiaRule_cursor]
  simp only [mkCtx, initState]
  cases hm : (autoDetect c p?).myopia <;> cases hb : (autoDetect c p?).blurOrGhosting <;>
    simp [hm, hb]

theorem calc_fontWeight_light (c : VisualConditions) (cv : ColorVisionType)
    (p? : Option Prescription) (cs? : Option CurrentSettings)
    (hl : c.lightSensitivity = true) :
    (calculateRecommendations c cv p? cs?).1.fontWeight = 400 := by
  simp only [calculateRecommendations, ruleSequence, List.foldl, finalize]
  rw [finalNotesRule_weight, currentSettingsRule_weight, colorVisionRule_weight,
      visualCrowdingRule_weight, lightSensitivityRule_weight]
  simp [mkCtx, autoDetect_light, hl]

/-- C5: when a prescription is supplied, auto-detection forces `myopia`
exactly when `avgSphere < -0.5`, `hyperopia` exactly when `avgSphere > 0.5`
and `astigmatism` exactly when `avgCylinder ≥ 0.5`, never clearing a flag the
caller set; the other four flags are unchanged; the amended condition set is
the second component of `calculateRecommendations`; and with no prescription
the conditions are returned unchanged. -/
theorem c5_prescription_auto_detection :
    ∀ (c : VisualConditions) (cv : ColorVisionType) (p : Prescription)
      (cs? : Option CurrentSettings),
      ((calculateRecommendations c cv (some p) cs?).2.myopia
          = (c.myopia || decide (avgSphereOf p < -(1/2))))
      ∧ ((calculateRecommendations c cv (some p) cs?).2.hyperopia
          = (c.hyperopia || decide (avgSphereOf p > 1/2)))
      ∧ ((calculateRecommendations c cv (some p) cs?).2.astigmatism
          = (c.astigmatism || decide (avgCylinderOf p ≥ 1/2)))
      ∧ (calculateRecommendations c cv (some p) cs?).2.eyeStrain = c.eyeStrain
      ∧ (calculateRecommendations c cv (some p) cs?).2.blurOrGhosting = c.blurOrGhosting
      ∧ (calculateRecommendations c cv (some p) cs?).2.lightSensitivity = c.lightSensitivity
      ∧ (calculateRecommendations c cv (some p) cs?).2.visualCrowding = c.visualCrowding
      ∧ (calculateRecommendations c cv none cs?).2 = c := by
  intro c cv p cs?
  exact ⟨autoDetect_myopia c p, autoDetect_hyperopia c p, autoDetect_astigmatism c p,
    autoDetect_eyeStrain c (some p), autoDetect_blur c (some p),
    autoDetect_light c (some p), autoDetect_crowding c (some p), rfl⟩

/-- C6: `suggestedThemes` is non-empty exactly when the color vision type is
not `normal`, and then equals the fixed `COLOR_VISION_THEMES` entry for that
type, in order. -/
theorem c6_theme_exclusivity :
    ∀ (c : VisualConditions) (cv : ColorVisionType) (p? : Option Prescription)
      (cs? : Option CurrentSettings),
      ((calculateRecommendations c cv p? cs?).1.suggestedThemes ≠ []
        ↔ cv ≠ ColorVisionType.normal)
      ∧ (calculateRecommendations c cv p? cs?).1.suggestedThemes =
          (match cv with
           | ColorVisionType.normal => []
           | ColorVisionType.deuteranopia =>
             ["Solarized Dark", "Solarized Light", "One Dark", "GitHub Dark",
              "Catppuccin Mocha"]
           | ColorVisionType.protanopia =>
             ["Solarized Dark", "Solarized Light", "Nord", "Tokyo Night"]
           | ColorVisionType.tritanopia =>
             ["Monokai", "Dracula", "Gruvbox", "Material Theme"]
           | ColorVisionType.achromatopsia =>
             ["High Contrast", "GitHub Light", "Paper"]) := by
  intro c cv p? cs?
  have h := calc_suggestedThemes c cv p? cs?
  cases cv <;> simp_all [COLOR_VISION_THEMES]

/-- C10: the produced cursor style is `block` exactly when myopia holds after
prescription auto-detection or blur/ghosting is set, `bar` otherwise, and in
particular it is never `underline`. -/
theorem c10_cursor_block_or_bar :
    ∀ (c : VisualConditions) (cv : ColorVisionType) (p? : Option Prescription)
      (cs? : Option CurrentSettings),
      ((calculateRecommendations c cv p? cs?).1.cursorStyle =
        (if (autoDetect c p?).myopia = true ∨ c.blurOrGhosting = true
         then CursorStyle.block else CursorStyle.bar))
      ∧ (calculateRecommendations c cv p? cs?).1.cursorStyle ≠ CursorStyle.underline := by
  intro c cv p? cs?
  have h := calc_cursorStyle c cv p? cs?
  rw [autoDetect_blur] at h
  refine ⟨h, ?_⟩
  rw [h]
  split <;> simp

/-- C3: with both blur/ghosting and light sensitivity set, the final font
weight is exactly 400 — the light-sensitivity rule runs after the
blur/ghosting rule and resets the weight unconditionally. -/
theorem c3_light_sensitivity_precedence :
    ∀ (c : VisualConditions) (cv : ColorVisionType) (p? : Option Prescription)
      (cs? : Option CurrentSettings),
      c.blurOrGhosting = true → c.lightSensitivity = true →
      (calculateRecommendations c cv p? cs?).1.fontWeight = 400 :=
  fun c cv p? cs? _ hl => calc_fontWeight_light c cv p? cs? hl

/-- Witness for C3: a concrete input with both flags set. -/
theorem c3_light_sensitivity_precedence_witness :
    (calculateRecommendations
        { myopia := false, hyperopia := false, astigmatism := false, eyeStrain := false,
          blurOrGhosting := true, lightSensitivity := true, visualCrowding := false }
        ColorVisionType.normal none none).1.fontWeight = 400 :=
  c3_light_sensitivity_precedence _ ColorVisionType.normal none none rfl rfl

/-- C2: the recommendation never goes below the research baselines, and the
rounding step preserves that; the line height is non-decreasing along the
rule sequence. -/
theorem c2_monotone_floor :
    ∀ (c : VisualConditions) (cv : ColorVisionType) (p? : Option Prescription)
      (cs? : Option CurrentSettings),
      (16 : ℚ) ≤ (calculateRecommendations c cv p? cs?).1.fontSize
      ∧ (3/2 : ℚ) ≤ (calculateRecommendations c cv p? cs?).1.lineHeight
      ∧ List.Chain' (fun a b : CalcState => a.lineHeight ≤ b.lineHeight)
          (List.scanl (fun s f => f s) initState (ruleSequence (mkCtx c cv p? cs?))) := by
  intro c cv p? cs?
  have hfs : 16 ≤ ((ruleSequence (mkCtx c cv p? cs?)).foldl
      (fun t f => f t) initState).fontSize :=
    foldl_rules_invariant (fun s => 16 ≤ s.fontSize) _
      (ruleSequence_fontSize_floor _) initState (by norm_num [initState])
  have hlh : (3/2 : ℚ) ≤ ((ruleSequence (mkCtx c cv p? cs?)).foldl
      (fun t f => f t) initState).lineHeight :=
    foldl_rules_invariant (fun s => (3/2 : ℚ) ≤ s.lineHeight) _
      (fun f hf s hs => le_trans hs (ruleSequence_lineHeight_mono _ f hf s)) initState
      (by norm_num [initState])
  refine ⟨?_, ?_, chain'_scanl_lineHeight _ (ruleSequence_lineHeight_mono _) _⟩
  · show (16 : ℚ) ≤ ((jround (((ruleSequence (mkCtx c cv p? cs?)).foldl
      (fun s f => f s) initState).fontSize) : ℤ) : ℚ)
    have h16 : (16 : ℤ) ≤ jround (((ruleSequence (mkCtx c cv p? cs?)).foldl
        (fun s f => f s) initState).fontSize) :=
      le_jround 16 _ (by push_cast; linarith)
    exact_mod_cast h16
  · show (3/2 : ℚ) ≤ ((jround (((ruleSequence (mkCtx c cv p? cs?)).foldl
      (fun s f => f s) initState).lineHeight * 10) : ℤ) : ℚ) / 10
    have h15 : (15 : ℤ) ≤ jround (((ruleSequence (mkCtx c cv p? cs?)).foldl
        (fun s f => f s) initState).lineHeight * 10) :=
      le_jround 15 _ (by push_cast; linarith)
    have h15q : (15 : ℚ) ≤ ((jround (((ruleSequence (mkCtx c cv p? cs?)).foldl
        (fun s f => f s) initState).lineHeight * 10) : ℤ) : ℚ) := by exact_mod_cast h15
    linarith

/-- The conditions record with all seven flags off. -/
def noConditions : VisualConditions :=
  { myopia := false, hyperopia := false, astigmatism := false, eyeStrain := false,
    blurOrGhosting := false, lightSensitivity := false, visualCrowding := false }

/-- The scenario-B prescription: both spheres -7, cylinders and axes 0. -/
def scenarioBRx : Prescription :=
  { rightEye := { sphere := -7, cylinder := 0, axis := 0 }
    leftEye := { sphere := -7, cylinder := 0, axis := 0 } }

/-- C4: when myopia is active, the myopia rule sets the font size by the
avgSphere tiers 20/18/17, sets the block cursor and appends exactly one
myopia citation; without a prescription avgSphere defaults to 0; and the
sphere -7 (both eyes) prescription scenario yields font size 20 with a
block cursor. -/
theorem c4_myopia_tiers :
    (∀ (ctx : Ctx) (s : CalcState), ctx.conditions.myopia = true →
      (myopiaRule ctx s).fontSize =
          (if ctx.avgSphere ≤ -6 then (20 : ℚ) else if ctx.avgSphere ≤ -3 then 18 else 17)
        ∧ (myopiaRule ctx s).cursorStyle = CursorStyle.block
        ∧ (myopiaRule ctx s).research = s.research ++ [myopiaCitation])
    ∧ (∀ (c : VisualConditions) (cv : ColorVisionType) (cs? : Option CurrentSettings),
        (mkCtx c cv none cs?).avgSphere = 0)
    ∧ (calculateRecommendations noConditions ColorVisionType.normal
        (some scenarioBRx) none).1.fontSize = 20
    ∧ (calculateRecommendations noConditions ColorVisionType.normal
        (some scenarioBRx) none).1.cursorStyle = CursorStyle.block := by
  refine ⟨?_, fun c cv cs? => rfl, ?_, ?_⟩
  · intro ctx s hm
    unfold myopiaRule
    rw [if_pos hm]
    (try dsimp only)
    refine ⟨?_, rfl, ?_⟩ <;> (split_ifs <;> rfl)
  · with_unfolding_all decide
  · with_unfolding_all decide

/-- Witness for C4: the myopia rule applied in the scenario-B context. -/
theorem c4_myopia_tiers_witness :
    (myopiaRule (mkCtx noConditions ColorVisionType.normal (some scenarioBRx) none)
        initState).fontSize = 20
    ∧ (calculateRecommendations noConditions ColorVisionType.normal
        (some scenarioBRx) none).1.fontSize = 20 := by
  have h := c4_myopia_tiers
  have h1 := h.1 (mkCtx noConditions ColorVisionType.normal (some scenarioBRx) none)
    initState (by with_unfolding_all decide)
  refine ⟨?_, h.2.2.1⟩
  rw [h1.1]
  with_unfolding_all decide

/-- The conditions record with only the astigmatism flag on. -/
def astigOnlyConditions : VisualConditions :=
  { myopia := false, hyperopia := false, astigmatism := true, eyeStrain := false,
    blurOrGhosting := false, lightSensitivity := false, visualCrowding := false }

set_option maxRecDepth 40000 in
/-- C7: astigmatism alone, with no prescription, gives line height 1.6, the
full six-font list in order, and the astigmatism explanation carries the
with-the-rule axis note because the default axis 0 falls in [0, 20]. -/
theorem c7_scenario_astigmatism :
    (calculateRecommendations astigOnlyConditions ColorVisionType.normal
        none none).1.lineHeight = 8/5
    ∧ (calculateRecommendations astigOnlyConditions ColorVisionType.normal
        none none).1.suggestedFonts =
        ["IBM Plex Mono", "JetBrains Mono", "Fira Code", "Input Mono",
         "Atkinson Hyperlegible Mono", "Source Code Pro"]
    ∧ axisNoteOf 0 =
        " Your with-the-rule astigmatism (horizontal axis) causes less degradation for Roman letters."
    ∧ ("Astigmatism: Line height increased to 1.6× to reduce line-to-line blur. Your with-the-rule astigmatism (horizontal axis) causes less degradation for Roman letters. Fonts with clear letterforms and wider spacing recommended."
        ∈ (calculateRecommendations astigOnlyConditions ColorVisionType.normal
            none none).1.explanations) := by
  refine ⟨?_, ?_, ?_, ?_⟩ <;> with_unfolding_all decide

/-- A recommendation whose `suggestedThemes` is non-empty but whose first
entry is the empty string (JavaScript treats it as falsy). -/
def emptyThemeRec : Recommendation :=
  { fontSize := 16, lineHeight := 3/2, fontWeight := 400, cursorStyle := CursorStyle.bar,
    suggestedFonts := [], suggestedThemes := [""], explanations := [], research := [] }

set_option maxRecDepth 40000 in
/-- Counterexample to C8 as stated: with `suggestedThemes = [""]` the list is
non-empty, yet none of the structured outputs uses the first entry as a
theme — the `theme && ...` spread drops the key because the empty string is
falsy, so the vscode output is identical to the one with no themes at all. -/
theorem c8_counterexample :
    emptyThemeRec.suggestedThemes ≠ []
    ∧ ("workbench.colorTheme", JVal.atom (JAtom.str "")) ∉ vscodeFields emptyThemeRec
    ∧ ("theme", JVal.atom (JAtom.str "")) ∉ zedFields emptyThemeRec
    ∧ "color_scheme" ∉ (sublimeFields emptyThemeRec).map Prod.fst
    ∧ generateEditorConfig emptyThemeRec "vscode" =
        generateEditorConfig
          { emptyThemeRec with suggestedThemes := [] } "vscode" := by
  refine ⟨?_, ?_, ?_, ?_, ?_⟩ <;> with_unfolding_all decide

/-- C8 (amended): with an empty `suggestedThemes` the theme key is omitted
from the vscode, zed and sublime objects and no theme line is emitted for
neovim and jetbrains; when the first entry is a non-empty string it is the
theme used everywhere; a first entry equal to the empty string is treated
exactly like an absent theme (JavaScript falsiness). -/
theorem c8_theme_key_presence :
    ∀ r : Recommendation,
      (match r.suggestedThemes with
       | [] =>
         "workbench.colorTheme" ∉ (vscodeFields r).map Prod.fst
         ∧ "theme" ∉ (zedFields r).map Prod.fst
         ∧ "color_scheme" ∉ (sublimeFields r).map Prod.fst
         ∧ generateEditorConfig r "neovim" = neovimMain r
         ∧ generateEditorConfig r "jetbrains" = jetbrainsMain r
       | t :: _ =>
         if t = "" then
           "workbench.colorTheme" ∉ (vscodeFields r).map Prod.fst
           ∧ "theme" ∉ (zedFields r).map Prod.fst
           ∧ "color_scheme" ∉ (sublimeFields r).map Prod.fst
           ∧ generateEditorConfig r "neovim" = neovimMain r
           ∧ generateEditorConfig r "jetbrains" = jetbrainsMain r
         else
           ("workbench.colorTheme", JVal.atom (JAtom.str t)) ∈ vscodeFields r
           ∧ ("theme", JVal.atom (JAtom.str t)) ∈ zedFields r
           ∧ ("color_scheme",
                JVal.atom (JAtom.str ("Packages/Theme/" ++ t ++ ".tmTheme")))
              ∈ sublimeFields r
           ∧ generateEditorConfig r "neovim" =
               neovimMain r ++ ("vim.cmd(\"colorscheme " ++
                 String.mk (collapseWs (t.map Char.toLower).data) ++ "\")")
           ∧ generateEditorConfig r "jetbrains" = jetbrainsMain r ++ ("Theme: " ++ t)) := by
  intro r
  rcases h : r.suggestedThemes with _ | ⟨t, ts⟩
  · have ht : themeOf r = none := by simp [themeOf, h]
    refine ⟨?_, ?_, ?_, ?_, ?_⟩ <;>
      simp [vscodeFields, zedFields, sublimeFields, themeField, ht,
        generateEditorConfig, neovimThemeLine, jetbrainsThemeLine]
  · have ht : themeOf r = some t := by simp [themeOf, h]
    (try dsimp only)
    by_cases hte : t = ""
    · rw [if_pos hte]
      subst hte
      refine ⟨?_, ?_, ?_, ?_, ?_⟩ <;>
        simp [vscodeFields, zedFields, sublimeFields, themeField, ht,
          generateEditorConfig, neovimThemeLine, jetbrainsThemeLine]
    · rw [if_neg hte]
      refine ⟨?_, ?_, ?_, ?_, ?_⟩ <;>
        simp [vscodeFields, zedFields, sublimeFields, themeField, ht, hte,
          generateEditorConfig, neovimThemeLine, jetbrainsThemeLine]

/-- The font clause of C9 exactly as the claim words it: the first suggested
font, or the default only when the list is empty. -/
def specFont (r : Recommendation) : String :=
  match r.suggestedFonts.head? with
  | some f => f
  | none => "JetBrains Mono"

/-- A recommendation whose `suggestedFonts` is non-empty but whose first
entry is the empty string. -/
def emptyFontRec : Recommendation :=
  { fontSize := 16, lineHeight := 3/2, fontWeight := 400, cursorStyle := CursorStyle.bar,
    suggestedFonts := [""], suggestedThemes := [], explanations := [], research := [] }

/-- Counterexample to C9 as stated: with `suggestedFonts = [""]` the list is
non-empty, so the claim's font is its first entry (the empty string), but
the fallback output uses the default "JetBrains Mono" because `||` treats
the empty string as falsy. -/
theorem c9_counterexample :
    emptyFontRec.suggestedFonts ≠ []
    ∧ ("font", JVal.atom (JAtom.str (specFont emptyFontRec))) ∉ fallbackFields emptyFontRec
    ∧ ("font", JVal.atom (JAtom.str "JetBrains Mono")) ∈ fallbackFields emptyFontRec := by
  refine ⟨?_, ?_, ?_⟩ <;> with_unfolding_all decide

/-- C9 (amended): any editor identifier outside the five supported ones
falls back to the generic structured dump; its font is the first suggested
font unless the list is empty or starts with the empty string, in which
case it is "JetBrains Mono"; and the theme key is absent when
`suggestedThemes` is empty. -/
theorem c9_unknown_editor_fallback :
    ∀ (r : Recommendation) (editor : String),
      editor ∉ ["vscode", "zed", "neovim", "jetbrains", "sublime"] →
      generateEditorConfig r editor = jsonStringify (fallbackFields r)
      ∧ ("font", JVal.atom (JAtom.str (fontOf r))) ∈ fallbackFields r
      ∧ fontOf r = (match r.suggestedFonts with
                    | [] => "JetBrains Mono"
                    | f :: _ => if f = "" then "JetBrains Mono" else f)
      ∧ (match r.suggestedThemes with
         | [] => "theme" ∉ (fallbackFields r).map Prod.fst
         | _ :: _ => True) := by
  intro r editor he
  simp only [List.mem_cons, List.not_mem_nil, or_false, not_or] at he
  obtain ⟨h1, h2, h3, h4, h5⟩ := he
  refine ⟨?_, ?_, ?_, ?_⟩
  · simp [generateEditorConfig, h1, h2, h3, h4, h5]
  · cases hf : r.suggestedFonts <;>
      simp [fallbackFields, themeOf]
  · cases hf : r.suggestedFonts <;> simp [fontOf, hf]
  · cases ht : r.suggestedThemes with
    | nil => simp [fallbackFields, themeOf, ht]
    | cons t ts => trivial

/-- Witness for C9 at the unknown identifier "emacs". -/
theorem c9_unknown_editor_fallback_witness :
    generateEditorConfig emptyFontRec "emacs" = jsonStringify (fallbackFields emptyFontRec)
    ∧ ("font", JVal.atom (JAtom.str (fontOf emptyFontRec))) ∈ fallbackFields emptyFontRec :=
  ⟨(c9_unknown_editor_fallback emptyFontRec "emacs" (by decide)).1,
   (c9_unknown_editor_fallback emptyFontRec "emacs" (by decide)).2.1⟩

/-! ### Character-class facts used by the round-trip proofs -/

theorem digitChar_mem (n : ℕ) (h : n < 10) :
    digitChar n ∈ ['0', '1', '2', '3', '4', '5', '6', '7', '8', '9'] := by
  interval_cases n <;> decide

theorem natChars_mem (n : ℕ) :
    ∀ c ∈ natChars n, c ∈ ['0', '1', '2', '3', '4', '5', '6', '7', '8', '9'] := by
  induction n using Nat.strong_induction_on with
  | _ n ih =>
    by_cases h : n < 10
    · rw [natChars_lt n h]
      intro c hc
      simp only [List.mem_singleton] at hc
      subst hc
      exact digitChar_mem n h
    · rw [natChars_ge n (by omega)]
      intro c hc
      rcases List.mem_append.mp hc with h1 | h2
      · exact ih (n / 10) (Nat.div_lt_self (by omega) (by omega)) c h1
      · simp only [List.mem_singleton] at h2
        subst h2
        exact digitChar_mem _ (Nat.mod_lt _ (by omega))

theorem intChars_mem (i : ℤ) :
    ∀ c ∈ intChars i, c ∈ ['0', '1', '2', '3', '4', '5', '6', '7', '8', '9', '-'] := by
  intro c hc
  unfold intChars at hc
  split at hc
  · rcases List.mem_cons.mp hc with h | h
    · simp [h]
    · have := natChars_mem _ c h
      simp only [List.mem_cons, List.not_mem_nil, or_false] at this ⊢
      tauto
  · have := natChars_mem _ c hc
    simp only [List.mem_cons, List.not_mem_nil, or_false] at this ⊢
    tauto

theorem numChars_mem (q : ℚ) :
    ∀ c ∈ numChars q,
      c ∈ ['0', '1', '2', '3', '4', '5', '6', '7', '8', '9', '-', '.', '/'] := by
  intro c hc
  unfold numChars at hc
  have ofInt : ∀ i : ℤ, c ∈ intChars i →
      c ∈ ['0', '1', '2', '3', '4', '5', '6', '7', '8', '9', '-', '.', '/'] := by
    intro i hi
    have := intChars_mem i c hi
    simp only [List.mem_cons, List.not_mem_nil, or_false] at this ⊢
    tauto
  have ofNat : ∀ n : ℕ, c ∈ natChars n →
      c ∈ ['0', '1', '2', '3', '4', '5', '6', '7', '8', '9', '-', '.', '/'] := by
    intro n hn
    have := natChars_mem n c hn
    simp only [List.mem_cons, List.not_mem_nil, or_false] at this ⊢
    tauto
  split at hc
  · exact ofInt _ hc
  · split at hc
    · rcases List.mem_append.mp hc with h | h
      · rcases List.mem_append.mp h with h | h
        · split at h
          · simp only [List.mem_singleton] at h; simp [h]
          · simp at h
        · exact ofNat _ h
      · rcases List.mem_cons.mp h with h | h
        · simp [h]
        · exact ofNat _ h
    · rcases List.mem_append.mp hc with h | h
      · exact ofInt _ h
      · rcases List.mem_cons.mp h with h | h
        · simp [h]
        · exact ofNat _ h

theorem numChars_char_facts (q : ℚ) :
    ∀ c ∈ numChars q,
      jsonEscapeChar c = [c] ∧ c ≠ ',' ∧ c ≠ '"' ∧ c ≠ '\n' := by
  intro c hc
  have h := numChars_mem q c hc
  fin_cases h <;> refine ⟨by decide, by decide, by decide, by decide⟩

theorem flatMap_id_of_mem {l : List Char} {f : Char → List Char}
    (h : ∀ c ∈ l, f c = [c]) : l.flatMap f = l := by
  induction l with
  | nil => rfl
  | cons x xs ih =>
    simp only [List.flatMap_cons, h x (by simp)]
    rw [ih (fun c hc => h c (by simp [hc]))]
    rfl

theorem jsonEscape_renderNum (q : ℚ) : jsonEscape (renderNum q) = renderNum q := by
  unfold jsonEscape renderNum
  congr 1
  exact flatMap_id_of_mem (fun c hc => (numChars_char_facts q c hc).1)

theorem jsonEscape_cursorString (cs : CursorStyle) :
    jsonEscape (cursorString cs) = cursorString cs := by
  cases cs <;> decide

/-! ### The parsing combinators -/

/-- Drop an expected prefix, or fail. -/
def stripPrefixCh : List Char → List Char → Option (List Char)
  | [], s => some s
  | _ :: _, [] => none
  | m :: ms, c :: cs => if m = c then stripPrefixCh ms cs else none

theorem stripPrefixCh_self_append : ∀ (m rest : List Char),
    stripPrefixCh m (m ++ rest) = some rest := by
  intro m
  induction m with
  | nil => intro rest; rfl
  | cons c ms ih => intro rest; simp [stripPrefixCh, ih rest]

theorem stripPrefixCh_cons_append (d : Char) (tl rest : List Char) :
    stripPrefixCh (d :: tl) (d :: (tl ++ rest)) = some rest := by
  rw [show d :: (tl ++ rest) = (d :: tl) ++ rest from rfl]
  exact stripPrefixCh_self_append _ _

/-- The character-inequality predicate the field parsers scan with. -/
def chNe (d : Char) (c : Char) : Bool := c ≠ d

theorem takeWhile_chNe (d : Char) : ∀ (a rest : List Char), (∀ c ∈ a, c ≠ d) →
    (a ++ d :: rest).takeWhile (chNe d) = a := by
  intro a
  induction a with
  | nil =>
    intro rest _
    simpa using List.takeWhile_cons_of_neg (l := rest) (by simp [chNe] : chNe d d ≠ true)
  | cons x xs ih =>
    intro rest h
    have hx : x ≠ d := h x (by simp)
    rw [List.cons_append,
      List.takeWhile_cons_of_pos (by simp [chNe, hx]),
      ih rest (fun c hc => h c (by simp [hc]))]

theorem dropWhile_chNe (d : Char) : ∀ (a rest : List Char), (∀ c ∈ a, c ≠ d) →
    (a ++ d :: rest).dropWhile (chNe d) = d :: rest := by
  intro a
  induction a with
  | nil =>
    intro rest _
    simpa using List.dropWhile_cons_of_neg (l := rest) (by simp [chNe] : chNe d d ≠ true)
  | cons x xs ih =>
    intro rest h
    have hx : x ≠ d := h x (by simp)
    rw [List.cons_append,
      List.dropWhile_cons_of_pos (by simp [chNe, hx]),
      ih rest (fun c hc => h c (by simp [hc]))]

/-! ### Number parsing and its round-trip -/

/-- Accumulator-style decimal evaluation. -/
def parseNatAux (acc : ℕ) : List Char → ℕ
  | [] => acc
  | c :: cs => parseNatAux (acc * 10 + (c.toNat - 48)) cs

/-- Parse a non-empty all-digit string. -/
def parseNatL (l : List Char) : Option ℕ :=
  if l ≠ [] ∧ l.all Char.isDigit then some (parseNatAux 0 l) else none

/-- Parse an optionally minus-signed decimal integer. -/
def parseIntL : List Char → Option ℤ
  | [] => none
  | c :: cs =>
    if c = '-' then (parseNatL cs).map (fun n => -(n : ℤ))
    else (parseNatL (c :: cs)).map (fun n => (n : ℤ))

theorem parseNatAux_append (l1 : List Char) : ∀ (a : ℕ) (l2 : List Char),
    parseNatAux a (l1 ++ l2) = parseNatAux (parseNatAux a l1) l2 := by
  induction l1 with
  | nil => intro a l2; rfl
  | cons c cs ih =>
    intro a l2
    show parseNatAux (a * 10 + (c.toNat - 48)) (cs ++ l2)
        = parseNatAux (parseNatAux a (c :: cs)) l2
    rw [ih]
    rfl

theorem digitChar_toNat (n : ℕ) (h : n < 10) : (digitChar n).toNat = 48 + n := by
  interval_cases n <;> decide

theorem parseNatAux_natChars (n : ℕ) : ∀ a : ℕ,
    parseNatAux a (natChars n) = a * 10 ^ (natChars n).length + n := by
  induction n using Nat.strong_induction_on with
  | _ n ih =>
    intro a
    by_cases h : n < 10
    · rw [natChars_lt n h]
      show a * 10 + ((digitChar n).toNat - 48) = a * 10 ^ ([digitChar n]).length + n
      rw [digitChar_toNat n h, List.length_singleton, pow_one]
      omega
    · rw [natChars_ge n (by omega), parseNatAux_append,
        ih (n / 10) (Nat.div_lt_self (by omega) (by omega)), List.length_append,
        List.length_singleton]
      show (a * 10 ^ (natChars (n / 10)).length + n / 10) * 10
            + ((digitChar (n % 10)).toNat - 48)
          = a * 10 ^ ((natChars (n / 10)).length + 1) + n
      rw [digitChar_toNat (n % 10) (Nat.mod_lt _ (by omega)), pow_succ, ← mul_assoc]
      generalize a * 10 ^ (natChars (n / 10)).length = b
      omega

theorem parseNatL_natChars (n : ℕ) : parseNatL (natChars n) = some n := by
  unfold parseNatL
  rw [if_pos ⟨natChars_ne_nil n, List.all_eq_true.mpr (natChars_digits n)⟩]
  rw [parseNatAux_natChars n 0]
  simp

theorem natChars_head_digit (n : ℕ) :
    ∃ c cs, natChars n = c :: cs ∧ c ≠ '-' ∧ c ≠ '.' ∧ c ≠ '/' := by
  obtain ⟨c, cs, hc⟩ := List.exists_cons_of_ne_nil (natChars_ne_nil n)
  refine ⟨c, cs, hc, ?_⟩
  have hm : c ∈ natChars n := by rw [hc]; simp
  have := natChars_mem n c hm
  fin_cases this <;> refine ⟨by decide, by decide, by decide⟩

theorem parseIntL_intChars (i : ℤ) : parseIntL (intChars i) = some i := by
  unfold intChars
  split
  case isTrue h =>
    show (if '-' = '-' then (parseNatL (natChars i.natAbs)).map (fun n => -(n : ℤ))
          else (parseNatL ('-' :: natChars i.natAbs)).map (fun n => (n : ℤ))) = some i
    rw [if_pos rfl, parseNatL_natChars]
    show some (-(i.natAbs : ℤ)) = some i
    congr 1
    omega
  case isFalse h =>
    obtain ⟨c, cs, hc, hcm, _, _⟩ := natChars_head_digit i.natAbs
    rw [hc]
    show (if c = '-' then (parseNatL cs).map (fun n => -(n : ℤ))
          else (parseNatL (c :: cs)).map (fun n => (n : ℤ))) = some i
    rw [if_neg hcm, ← hc, parseNatL_natChars]
    show some ((i.natAbs : ℤ)) = some i
    congr 1
    omega

/-- Split a character list at every occurrence of a separator. -/
def splitOnChar (sep : Char) : List Char → List (List Char)
  | [] => [[]]
  | c :: cs =>
    if c = sep then [] :: splitOnChar sep cs
    else
      match splitOnChar sep cs with
      | [] => [[c]]
      | a :: as => (c :: a) :: as

theorem splitOnChar_ne_nil (sep : Char) : ∀ l : List Char, splitOnChar sep l ≠ [] := by
  intro l
  induction l with
  | nil => simp [splitOnChar]
  | cons c cs ih =>
    unfold splitOnChar
    split
    · simp
    · split
      · simp
      · simp

theorem splitOnChar_not_mem (sep : Char) : ∀ l : List Char, sep ∉ l →
    splitOnChar sep l = [l] := by
  intro l
  induction l with
  | nil => intro _; rfl
  | cons c cs ih =>
    intro h
    have hc : c ≠ sep := fun he => h (by simp [he])
    rw [splitOnChar, if_neg hc, ih (fun hm => h (by simp [hm]))]

theorem splitOnChar_append (sep : Char) : ∀ (a rest : List Char), sep ∉ a →
    splitOnChar sep (a ++ sep :: rest) = a :: splitOnChar sep rest := by
  intro a
  induction a with
  | nil =>
    intro rest _
    show splitOnChar sep (sep :: rest) = [] :: splitOnChar sep rest
    rw [splitOnChar, if_pos rfl]
  | cons c cs ih =>
    intro rest h
    have hc : c ≠ sep := fun he => h (by simp [he])
    show splitOnChar sep (c :: (cs ++ sep :: rest)) = (c :: cs) :: splitOnChar sep rest
    rw [splitOnChar, if_neg hc, ih rest (fun hm => h (by simp [hm]))]

theorem intChars_not_slash (i : ℤ) : '/' ∉ intChars i :=
  fun hm => absurd (intChars_mem i '/' hm) (by decide)

theorem intChars_not_dot (i : ℤ) : '.' ∉ intChars i :=
  fun hm => absurd (intChars_mem i '.' hm) (by decide)

theorem natChars_not_slash (n : ℕ) : '/' ∉ natChars n :=
  fun hm => absurd (natChars_mem n '/' hm) (by decide)

theorem natChars_not_dot (n : ℕ) : '.' ∉ natChars n :=
  fun hm => absurd (natChars_mem n '.' hm) (by decide)

/-- Parse the decimal rendering of a JavaScript number back to a rational:
an integer, a signed decimal with fractional digits, or the `num/den`
fallback form. -/
def parseNumL (l : List Char) : Option ℚ :=
  match splitOnChar '/' l with
  | [a, b] => do
      let x ← parseIntL a
      let y ← parseNatL b
      pure ((x : ℚ) / (y : ℚ))
  | [w] =>
    match splitOnChar '.' w with
    | [a, b] =>
      if a.head? = some '-' then do
        let ip ← parseNatL a.tail
        let fp ← parseNatL b
        pure (-(((ip * 10 ^ b.length + fp : ℕ) : ℚ) / ((10 ^ b.length : ℕ) : ℚ)))
      else do
        let ip ← parseNatL a
        let fp ← parseNatL b
        pure (((ip * 10 ^ b.length + fp : ℕ) : ℚ) / ((10 ^ b.length : ℕ) : ℚ))
    | [a] => (parseIntL a).map (fun x => (x : ℚ))
    | _ => none
  | _ => none

theorem rat_eq_num_of_den_one {q : ℚ} (h : q.den = 1) : (q.num : ℚ) = q := by
  have hd := Rat.num_div_den q
  rw [h] at hd
  simpa using hd

theorem parseNumL_numChars (q : ℚ) : parseNumL (numChars q) = some q := by
  unfold numChars
  split
  case isTrue hden =>
    unfold parseNumL
    rw [splitOnChar_not_mem _ _ (intChars_not_slash q.num)]
    show (match splitOnChar '.' (intChars q.num) with
      | [a, b] =>
        if a.head? = some '-' then do
          let ip ← parseNatL a.tail
          let fp ← parseNatL b
          pure (-(((ip * 10 ^ b.length + fp : ℕ) : ℚ) / ((10 ^ b.length : ℕ) : ℚ)))
        else do
          let ip ← parseNatL a
          let fp ← parseNatL b
          pure (((ip * 10 ^ b.length + fp : ℕ) : ℚ) / ((10 ^ b.length : ℕ) : ℚ))
      | [a] => (parseIntL a).map (fun x => (x : ℚ))
      | _ => none) = some q
    rw [splitOnChar_not_mem _ _ (intChars_not_dot q.num)]
    show (parseIntL (intChars q.num)).map (fun x => (x : ℚ)) = some q
    rw [parseIntL_intChars]
    show some ((q.num : ℚ)) = some q
    rw [rat_eq_num_of_den_one hden]
  case isFalse hden =>
    split
    case isTrue h10 =>
      have hB : (q * 10).num.natAbs % 10 < 10 := Nat.mod_lt _ (by omega)
      have hBeq : natChars ((q * 10).num.natAbs % 10) = [digitChar ((q * 10).num.natAbs % 10)] :=
        natChars_lt _ hB
      have hq10 : (((q * 10).num : ℤ) : ℚ) = q * 10 := by
        exact_mod_cast rat_eq_num_of_den_one h10
      have habs : ((q * 10).num.natAbs / 10) * 10 + (q * 10).num.natAbs % 10
          = (q * 10).num.natAbs := by omega
      by_cases hmneg : (q * 10).num < 0
      · rw [if_pos hmneg]
        have hsl : '/' ∉ ['-'] ++ natChars ((q * 10).num.natAbs / 10) ++
            '.' :: natChars ((q * 10).num.natAbs % 10) := by
          intro hm
          rcases List.mem_append.mp hm with h1 | h2
          · rcases List.mem_append.mp h1 with h3 | h4
            · simp at h3
            · exact natChars_not_slash _ h4
          · rcases List.mem_cons.mp h2 with h3 | h4
            · exact absurd h3 (by decide)
            · exact natChars_not_slash _ h4
        have hdot1 : '.' ∉ ['-'] ++ natChars ((q * 10).num.natAbs / 10) := by
          intro hm
          rcases List.mem_append.mp hm with h1 | h2
          · simp at h1
          · exact natChars_not_dot _ h2
        unfold parseNumL
        rw [splitOnChar_not_mem _ _ hsl]
        show (match splitOnChar '.' (['-'] ++ natChars ((q * 10).num.natAbs / 10) ++
            '.' :: natChars ((q * 10).num.natAbs % 10)) with
          | [a, b] =>
            if a.head? = some '-' then do
              let ip ← parseNatL a.tail
              let fp ← parseNatL b
              pure (-(((ip * 10 ^ b.length + fp : ℕ) : ℚ) / ((10 ^ b.length : ℕ) : ℚ)))
            else do
              let ip ← parseNatL a
              let fp ← parseNatL b
              pure (((ip * 10 ^ b.length + fp : ℕ) : ℚ) / ((10 ^ b.length : ℕ) : ℚ))
          | [a] => (parseIntL a).map (fun x => (x : ℚ))
          | _ => none) = some q
        rw [splitOnChar_append '.' _ _ hdot1,
          splitOnChar_not_mem _ _ (natChars_not_dot _)]
        show (if (['-'] ++ natChars ((q * 10).num.natAbs / 10)).head? = some '-' then _
          else _) = some q
        rw [if_pos (by simp)]
        show (do
          let ip ← parseNatL (['-'] ++ natChars ((q * 10).num.natAbs / 10)).tail
          let fp ← parseNatL (natChars ((q * 10).num.natAbs % 10))
          pure (-(((ip * 10 ^ (natChars ((q * 10).num.natAbs % 10)).length + fp : ℕ) : ℚ) /
            ((10 ^ (natChars ((q * 10).num.natAbs % 10)).length : ℕ) : ℚ))) : Option ℚ)
          = some q
        rw [show (['-'] ++ natChars ((q * 10).num.natAbs / 10)).tail
            = natChars ((q * 10).num.natAbs / 10) from rfl,
          parseNatL_natChars, parseNatL_natChars, hBeq]
        show some (-((((((q * 10).num.natAbs / 10) * 10 ^ ([digitChar ((q * 10).num.natAbs % 10)]).length + (q * 10).num.natAbs % 10 : ℕ) : ℚ)) /
          ((10 ^ ([digitChar ((q * 10).num.natAbs % 10)]).length : ℕ) : ℚ))) = some q
        congr 1
        rw [List.length_singleton, pow_one, habs]
        have hcast : (((q * 10).num.natAbs : ℕ) : ℚ) = -(((q * 10).num : ℤ) : ℚ) := by
          rw [Nat.cast_natAbs, abs_of_neg hmneg]
          push_cast
          ring
        rw [hcast, hq10]
        push_cast
        ring
      · rw [if_neg hmneg]
        have hsl : '/' ∉ [] ++ natChars ((q * 10).num.natAbs / 10) ++
            '.' :: natChars ((q * 10).num.natAbs % 10) := by
          intro hm
          rcases List.mem_append.mp hm with h1 | h2
          · rcases List.mem_append.mp h1 with h3 | h4
            · simp at h3
            · exact natChars_not_slash _ h4
          · rcases List.mem_cons.mp h2 with h3 | h4
            · exact absurd h3 (by decide)
            · exact natChars_not_slash _ h4
        have hdot1 : '.' ∉ [] ++ natChars ((q * 10).num.natAbs / 10) := by
          intro hm
          rcases List.mem_append.mp hm with h1 | h2
          · simp at h1
          · exact natChars_not_dot _ h2
        obtain ⟨c, cs, hc, hcm, _, _⟩ := natChars_head_digit ((q * 10).num.natAbs / 10)
        unfold parseNumL
        rw [splitOnChar_not_mem _ _ hsl]
        show (match splitOnChar '.' ([] ++ natChars ((q * 10).num.natAbs / 10) ++
            '.' :: natChars ((q * 10).num.natAbs % 10)) with
          | [a, b] =>
            if a.head? = some '-' then do
              let ip ← parseNatL a.tail
              let fp ← parseNatL b
              pure (-(((ip * 10 ^ b.length + fp : ℕ) : ℚ) / ((10 ^ b.length : ℕ) : ℚ)))
            else do
              let ip ← parseNatL a
              let fp ← parseNatL b
              pure (((ip * 10 ^ b.length + fp : ℕ) : ℚ) / ((10 ^ b.length : ℕ) : ℚ))
          | [a] => (parseIntL a).map (fun x => (x : ℚ))
          | _ => none) = some q
        rw [splitOnChar_append '.' _ _ hdot1,
          splitOnChar_not_mem _ _ (natChars_not_dot _)]
        show (if ([] ++ natChars ((q * 10).num.natAbs / 10)).head? = some '-' then _
          else _) = some q
        rw [if_neg (by rw [List.nil_append, hc]; simp [hcm])]
        show (do
          let ip ← parseNatL ([] ++ natChars ((q * 10).num.natAbs / 10))
          let fp ← parseNatL (natChars ((q * 10).num.natAbs % 10))
          pure ((((ip * 10 ^ (natChars ((q * 10).num.natAbs % 10)).length + fp : ℕ) : ℚ)) /
            ((10 ^ (natChars ((q * 10).num.natAbs % 10)).length : ℕ) : ℚ)) : Option ℚ)
          = some q
        rw [List.nil_append, parseNatL_natChars, parseNatL_natChars, hBeq]
        show some ((((((q * 10).num.natAbs / 10) * 10 ^ ([digitChar ((q * 10).num.natAbs % 10)]).length + (q * 10).num.natAbs % 10 : ℕ) : ℚ)) /
          ((10 ^ ([digitChar ((q * 10).num.natAbs % 10)]).length : ℕ) : ℚ)) = some q
        congr 1
        rw [List.length_singleton, pow_one, habs]
        have hcast : (((q * 10).num.natAbs : ℕ) : ℚ) = (((q * 10).num : ℤ) : ℚ) := by
          rw [Nat.cast_natAbs, abs_of_nonneg (by omega : (0 : ℤ) ≤ (q * 10).num)]
        rw [hcast, hq10]
        push_cast
        ring
    case isFalse h10 =>
      unfold parseNumL
      rw [splitOnChar_append '/' _ _ (intChars_not_slash q.num),
        splitOnChar_not_mem _ _ (natChars_not_slash q.den)]
      show (do
        let x ← parseIntL (intChars q.num)
        let y ← parseNatL (natChars q.den)
        pure ((x : ℚ) / (y : ℚ)) : Option ℚ) = some q
      rw [parseIntL_intChars, parseNatL_natChars]
      show some ((q.num : ℚ) / ((q.den : ℕ) : ℚ)) = some q
      congr 1
      exact_mod_cast Rat.num_div_den q

/-- Parse one of the three cursor-style strings. -/
def parseCursor (l : List Char) : Option CursorStyle :=
  if l = "bar".data then some CursorStyle.bar
  else if l = "block".data then some CursorStyle.block
  else if l = "underline".data then some CursorStyle.underline
  else none

theorem parseCursor_cursorString (cs : CursorStyle) :
    parseCursor (cursorString cs).data = some cs := by
  cases cs <;> decide

theorem cursorString_no_quote (cs : CursorStyle) :
    ∀ c ∈ (cursorString cs).data, c ≠ '"' := by
  cases cs <;> decide

/-! ### Field-level parsers for the vscode and zed outputs -/

/-- Everything before the fontSize value in the vscode output. -/
def vsM1 : List Char := "\x7b\n  \"editor.fontSize\": ".data

/-- Between fontSize's comma and the lineHeight value. -/
def vsT2 : List Char := "\n  \"editor.lineHeight\": ".data

/-- Between lineHeight's comma and the fontWeight value. -/
def vsT3 : List Char := "\n  \"editor.fontWeight\": \"".data

/-- Between fontWeight's closing quote-comma and the cursorStyle value. -/
def vsT4 : List Char := "\n  \"editor.cursorStyle\": \"".data

/-- The exact character-level shape of the vscode output up to the cursor
style; everything after its closing quote is `tail`. -/
def vscodeShape (fs lh fw : ℚ) (cs : CursorStyle) (tail : List Char) : List Char :=
  vsM1 ++ (numChars fs ++ (',' :: (vsT2 ++ (numChars lh ++ (',' :: (vsT3 ++
    (numChars fw ++ ('"' :: (',' :: (vsT4 ++ ((cursorString cs).data ++
      ('"' :: tail))))))))))))

/-- Recover (fontSize, lineHeight, fontWeight, cursorStyle) from the vscode
output text. -/
def parseVscodeData (l : List Char) : Option (ℚ × ℚ × ℚ × CursorStyle) := do
  let r1 ← stripPrefixCh vsM1 l
  let fs ← parseNumL (r1.takeWhile (chNe ','))
  let r2 ← stripPrefixCh (',' :: vsT2) (r1.dropWhile (chNe ','))
  let lh ← parseNumL (r2.takeWhile (chNe ','))
  let r3 ← stripPrefixCh (',' :: vsT3) (r2.dropWhile (chNe ','))
  let fw ← parseNumL (r3.takeWhile (chNe '"'))
  let r4 ← stripPrefixCh ('"' :: ',' :: vsT4) (r3.dropWhile (chNe '"'))
  let cs ← parseCursor (r4.takeWhile (chNe '"'))
  pure (fs, lh, fw, cs)

/-- The vscode parser, on strings. -/
def parseVscode (s : String) : Option (ℚ × ℚ × ℚ × CursorStyle) :=
  parseVscodeData s.data

/-- Everything before the fontSize value in the zed output. -/
def zdM1 : List Char := "\x7b\n  \"buffer_font_size\": ".data

/-- Between fontSize's comma and the nested custom lineHeight value. -/
def zdT2 : List Char := "\n  \"buffer_line_height\": \x7b\n    \"custom\": ".data

/-- Between lineHeight's newline and the fontWeight value. -/
def zdT3 : List Char := "  \x7d,\n  \"buffer_font_weight\": ".data

/-- Between fontWeight's comma and the cursor shape value. -/
def zdT4 : List Char := "\n  \"cursor_shape\": \"".data

/-- The exact character-level shape of the zed output up to the cursor
shape; everything after its closing quote is `tail`. -/
def zedShape (fs lh fw : ℚ) (cs : CursorStyle) (tail : List Char) : List Char :=
  zdM1 ++ (numChars fs ++ (',' :: (zdT2 ++ (numChars lh ++ ('\n' :: (zdT3 ++
    (numChars fw ++ (',' :: (zdT4 ++ ((cursorString cs).data ++
      ('"' :: tail)))))))))))

/-- Recover (fontSize, lineHeight, fontWeight, cursorStyle) from the zed
output text. -/
def parseZedData (l : List Char) : Option (ℚ × ℚ × ℚ × CursorStyle) := do
  let r1 ← stripPrefixCh zdM1 l
  let fs ← parseNumL (r1.takeWhile (chNe ','))
  let r2 ← stripPrefixCh (',' :: zdT2) (r1.dropWhile (chNe ','))
  let lh ← parseNumL (r2.takeWhile (chNe '\n'))
  let r3 ← stripPrefixCh ('\n' :: zdT3) (r2.dropWhile (chNe '\n'))
  let fw ← parseNumL (r3.takeWhile (chNe ','))
  let r4 ← stripPrefixCh (',' :: zdT4) (r3.dropWhile (chNe ','))
  let cs ← parseCursor (r4.takeWhile (chNe '"'))
  pure (fs, lh, fw, cs)

/-- The zed parser, on strings. -/
def parseZed (s : String) : Option (ℚ × ℚ × ℚ × CursorStyle) :=
  parseZedData s.data

theorem numChars_ne_comma (q : ℚ) : ∀ c ∈ numChars q, c ≠ ',' :=
  fun c hc => (numChars_char_facts q c hc).2.1

theorem numChars_ne_quote (q : ℚ) : ∀ c ∈ numChars q, c ≠ '"' :=
  fun c hc => (numChars_char_facts q c hc).2.2.1

theorem numChars_ne_newline (q : ℚ) : ∀ c ∈ numChars q, c ≠ '\n' :=
  fun c hc => (numChars_char_facts q c hc).2.2.2

theorem stripPrefixCh_cons2_append (d1 d2 : Char) (tl rest : List Char) :
    stripPrefixCh (d1 :: d2 :: tl) (d1 :: (d2 :: (tl ++ rest))) = some rest := by
  rw [show d1 :: (d2 :: (tl ++ rest)) = (d1 :: d2 :: tl) ++ rest from rfl]
  exact stripPrefixCh_self_append _ _

theorem parseVscodeData_shape (fs lh fw : ℚ) (cs : CursorStyle) (tail : List Char) :
    parseVscodeData (vscodeShape fs lh fw cs tail) = some (fs, lh, fw, cs) := by
  unfold parseVscodeData vscodeShape
  rw [stripPrefixCh_self_append]
  simp only [Option.bind_eq_bind, Option.some_bind]
  rw [takeWhile_chNe ',' (numChars fs) _ (numChars_ne_comma fs), parseNumL_numChars]
  simp only [Option.some_bind]
  rw [dropWhile_chNe ',' (numChars fs) _ (numChars_ne_comma fs),
    stripPrefixCh_cons_append]
  simp only [Option.some_bind]
  rw [takeWhile_chNe ',' (numChars lh) _ (numChars_ne_comma lh), parseNumL_numChars]
  simp only [Option.some_bind]
  rw [dropWhile_chNe ',' (numChars lh) _ (numChars_ne_comma lh),
    stripPrefixCh_cons_append]
  simp only [Option.some_bind]
  rw [takeWhile_chNe '"' (numChars fw) _ (numChars_ne_quote fw), parseNumL_numChars]
  simp only [Option.some_bind]
  rw [dropWhile_chNe '"' (numChars fw) _ (numChars_ne_quote fw),
    stripPrefixCh_cons2_append]
  simp only [Option.some_bind]
  rw [takeWhile_chNe '"' ((cursorString cs).data) _ (cursorString_no_quote cs),
    parseCursor_cursorString]
  simp only [Option.some_bind]
  rfl

theorem parseZedData_shape (fs lh fw : ℚ) (cs : CursorStyle) (tail : List Char) :
    parseZedData (zedShape fs lh fw cs tail) = some (fs, lh, fw, cs) := by
  unfold parseZedData zedShape
  rw [stripPrefixCh_self_append]
  simp only [Option.bind_eq_bind, Option.some_bind]
  rw [takeWhile_chNe ',' (numChars fs) _ (numChars_ne_comma fs), parseNumL_numChars]
  simp only [Option.some_bind]
  rw [dropWhile_chNe ',' (numChars fs) _ (numChars_ne_comma fs),
    stripPrefixCh_cons_append]
  simp only [Option.some_bind]
  rw [takeWhile_chNe '\n' (numChars lh) _ (numChars_ne_newline lh), parseNumL_numChars]
  simp only [Option.some_bind]
  rw [dropWhile_chNe '\n' (numChars lh) _ (numChars_ne_newline lh),
    stripPrefixCh_cons_append]
  simp only [Option.some_bind]
  rw [takeWhile_chNe ',' (numChars fw) _ (numChars_ne_comma fw), parseNumL_numChars]
  simp only [Option.some_bind]
  rw [dropWhile_chNe ',' (numChars fw) _ (numChars_ne_comma fw),
    stripPrefixCh_cons_append]
  simp only [Option.some_bind]
  rw [takeWhile_chNe '"' ((cursorString cs).data) _ (cursorString_no_quote cs),
    parseCursor_cursorString]
  simp only [Option.some_bind]
  rfl


/-- Appending strings appends their character data. -/
theorem string_data_append (a b : String) : (a ++ b).data = a.data ++ b.data := rfl

/-- The character data of a string built from a list is that list. -/
theorem string_data_mk (l : List Char) : (String.mk l).data = l := rfl

/-- The character data of a rendered number is `numChars`. -/
theorem renderNum_data (q : ℚ) : (renderNum q).data = numChars q := rfl

/-- Merge four adjacent right-nested literal chunks into one marker. -/
theorem chunk4 (A1 A2 A3 A4 M X : List Char) (h : A1 ++ (A2 ++ (A3 ++ A4)) = M) :
    A1 ++ (A2 ++ (A3 ++ (A4 ++ X))) = M ++ X := by
  rw [← h]
  simp [List.append_assoc]

/-- Merge five adjacent right-nested literal chunks into one marker. -/
theorem chunk5 (A1 A2 A3 A4 A5 M X : List Char)
    (h : A1 ++ (A2 ++ (A3 ++ (A4 ++ A5))) = M) :
    A1 ++ (A2 ++ (A3 ++ (A4 ++ (A5 ++ X)))) = M ++ X := by
  rw [← h]
  simp [List.append_assoc]

/-- Merge six adjacent right-nested literal chunks into one marker. -/
theorem chunk6 (A1 A2 A3 A4 A5 A6 M X : List Char)
    (h : A1 ++ (A2 ++ (A3 ++ (A4 ++ (A5 ++ A6)))) = M) :
    A1 ++ (A2 ++ (A3 ++ (A4 ++ (A5 ++ (A6 ++ X))))) = M ++ X := by
  rw [← h]
  simp [List.append_assoc]

/-- With no effective theme, the vscode output matches `vscodeShape` with
the font-family segment as the tail. -/
theorem vscode_data (r : Recommendation)
    (hth : themeField "workbench.colorTheme" (themeOf r)
      (fun t => JVal.atom (JAtom.str t)) = []) :
    (generateEditorConfig r "vscode").data =
      vscodeShape r.fontSize r.lineHeight r.fontWeight r.cursorStyle
        (",\n  \"editor.fontFamily\": \"".data ++
          ((jsonEscape ("\x27" ++ fontOf r ++ "\x27, \x27Fira Code\x27, Consolas, monospace")).data ++
            "\"\n\x7d".data)) := by
  have hgen : generateEditorConfig r "vscode" = jsonStringify (vscodeFields r) := by
    simp [generateEditorConfig]
  have hk1 : jsonEscape "editor.fontSize" = "editor.fontSize" := by decide
  have hk2 : jsonEscape "editor.lineHeight" = "editor.lineHeight" := by decide
  have hk3 : jsonEscape "editor.fontWeight" = "editor.fontWeight" := by decide
  have hk4 : jsonEscape "editor.cursorStyle" = "editor.cursorStyle" := by decide
  have hk5 : jsonEscape "editor.fontFamily" = "editor.fontFamily" := by decide
  rw [hgen]
  simp only [vscodeFields, hth, List.append_nil]
  simp only [jsonStringify, List.map, joinSep, renderJVal, renderAtom,
    jsonEscape_renderNum, jsonEscape_cursorString, hk1, hk2, hk3, hk4, hk5]
  simp only [string_data_append, string_data_mk, renderNum_data]
  simp only [List.append_assoc]
  rw [chunk4 "\x7b\n".data "  \"".data "editor.fontSize".data "\": ".data vsM1 _
      (by decide),
    chunk4 ",\n".data "  \"".data "editor.lineHeight".data "\": ".data
      (',' :: vsT2) _ (by decide),
    chunk5 ",\n".data "  \"".data "editor.fontWeight".data "\": ".data "\"".data
      (',' :: vsT3) _ (by decide),
    chunk6 "\"".data ",\n".data "  \"".data "editor.cursorStyle".data "\": ".data
      "\"".data ('"' :: ',' :: vsT4) _ (by decide),
    chunk5 "\"".data ",\n".data "  \"".data "editor.fontFamily".data "\": ".data
      ('"' :: ",\n  \"editor.fontFamily\": ".data) _ (by decide)]
  rw [show "\"".data ++ "\n\x7d".data = "\"\n\x7d".data from by decide]
  simp [vscodeShape, List.cons_append, List.append_assoc]

/-- Merge seven adjacent right-nested literal chunks into one marker. -/
theorem chunk7 (A1 A2 A3 A4 A5 A6 A7 M X : List Char)
    (h : A1 ++ (A2 ++ (A3 ++ (A4 ++ (A5 ++ (A6 ++ A7))))) = M) :
    A1 ++ (A2 ++ (A3 ++ (A4 ++ (A5 ++ (A6 ++ (A7 ++ X)))))) = M ++ X := by
  rw [← h]
  simp [List.append_assoc]

/-- Merge eight adjacent right-nested literal chunks into one marker. -/
theorem chunk8 (A1 A2 A3 A4 A5 A6 A7 A8 M X : List Char)
    (h : A1 ++ (A2 ++ (A3 ++ (A4 ++ (A5 ++ (A6 ++ (A7 ++ A8)))))) = M) :
    A1 ++ (A2 ++ (A3 ++ (A4 ++ (A5 ++ (A6 ++ (A7 ++ (A8 ++ X))))))) = M ++ X := by
  rw [← h]
  simp [List.append_assoc]

/-- With an effective (non-empty) theme, the vscode output matches
`vscodeShape` with a tail carrying font family and `workbench.colorTheme`. -/
theorem vscode_data_theme (r : Recommendation) (t : String)
    (hth : themeOf r = some t) (hne : t ≠ "") :
    (generateEditorConfig r "vscode").data =
      vscodeShape r.fontSize r.lineHeight r.fontWeight r.cursorStyle
        (",\n  \"editor.fontFamily\": \"".data ++
          ((jsonEscape ("\x27" ++ fontOf r ++ "\x27, \x27Fira Code\x27, Consolas, monospace")).data ++
            ("\",\n  \"workbench.colorTheme\": \"".data ++
              ((jsonEscape t).data ++ "\"\n\x7d".data)))) := by
  have hgen : generateEditorConfig r "vscode" = jsonStringify (vscodeFields r) := by
    simp [generateEditorConfig]
  have hk1 : jsonEscape "editor.fontSize" = "editor.fontSize" := by decide
  have hk2 : jsonEscape "editor.lineHeight" = "editor.lineHeight" := by decide
  have hk3 : jsonEscape "editor.fontWeight" = "editor.fontWeight" := by decide
  have hk4 : jsonEscape "editor.cursorStyle" = "editor.cursorStyle" := by decide
  have hk5 : jsonEscape "editor.fontFamily" = "editor.fontFamily" := by decide
  have hk6 : jsonEscape "workbench.colorTheme" = "workbench.colorTheme" := by decide
  rw [hgen]
  simp only [vscodeFields, themeField, hth, hne, if_neg, ite_false]
  simp only [List.cons_append, List.nil_append, List.append_nil]
  simp only [jsonStringify, List.map, joinSep, renderJVal, renderAtom,
    jsonEscape_renderNum, jsonEscape_cursorString, hk1, hk2, hk3, hk4, hk5, hk6]
  simp only [string_data_append, string_data_mk, renderNum_data]
  simp only [List.append_assoc]
  rw [chunk4 "\x7b\n".data "  \"".data "editor.fontSize".data "\": ".data vsM1 _
      (by decide),
    chunk4 ",\n".data "  \"".data "editor.lineHeight".data "\": ".data
      (',' :: vsT2) _ (by decide),
    chunk5 ",\n".data "  \"".data "editor.fontWeight".data "\": ".data "\"".data
      (',' :: vsT3) _ (by decide),
    chunk6 "\"".data ",\n".data "  \"".data "editor.cursorStyle".data "\": ".data
      "\"".data ('"' :: ',' :: vsT4) _ (by decide),
    chunk5 "\"".data ",\n".data "  \"".data "editor.fontFamily".data "\": ".data
      ('"' :: ",\n  \"editor.fontFamily\": ".data) _ (by decide),
    chunk5 "\"".data ",\n".data "  \"".data "workbench.colorTheme".data "\": ".data
      ('"' :: ",\n  \"workbench.colorTheme\": ".data) _ (by decide)]
  rw [show "\"".data ++ "\n\x7d".data = "\"\n\x7d".data from by decide]
  simp [vscodeShape, List.cons_append, List.append_assoc]

/-- Merge nine adjacent right-nested literal chunks into one marker. -/
theorem chunk9 (A1 A2 A3 A4 A5 A6 A7 A8 A9 M X : List Char)
    (h : A1 ++ (A2 ++ (A3 ++ (A4 ++ (A5 ++ (A6 ++ (A7 ++ (A8 ++ A9))))))) = M) :
    A1 ++ (A2 ++ (A3 ++ (A4 ++ (A5 ++ (A6 ++ (A7 ++ (A8 ++ (A9 ++ X)))))))) = M ++ X := by
  rw [← h]
  simp [List.append_assoc]

/-- With no effective theme, the zed output matches `zedShape` with the
font-family segment as the tail. -/
theorem zed_data (r : Recommendation)
    (hth : themeField "theme" (themeOf r)
      (fun t => JVal.atom (JAtom.str t)) = []) :
    (generateEditorConfig r "zed").data =
      zedShape r.fontSize r.lineHeight r.fontWeight r.cursorStyle
        (",\n  \"buffer_font_family\": \"".data ++
          ((jsonEscape (fontOf r)).data ++ "\"\n\x7d".data)) := by
  have hgen : generateEditorConfig r "zed" = jsonStringify (zedFields r) := by
    simp [generateEditorConfig]
  have hk1 : jsonEscape "buffer_font_size" = "buffer_font_size" := by decide
  have hk2 : jsonEscape "buffer_line_height" = "buffer_line_height" := by decide
  have hk3 : jsonEscape "custom" = "custom" := by decide
  have hk4 : jsonEscape "buffer_font_weight" = "buffer_font_weight" := by decide
  have hk5 : jsonEscape "cursor_shape" = "cursor_shape" := by decide
  have hk6 : jsonEscape "buffer_font_family" = "buffer_font_family" := by decide
  rw [hgen]
  simp only [zedFields, hth, List.append_nil]
  simp only [jsonStringify, List.map, joinSep, renderJVal, renderAtom,
    jsonEscape_renderNum, jsonEscape_cursorString, hk1, hk2, hk3, hk4, hk5, hk6]
  simp only [string_data_append, string_data_mk, renderNum_data]
  simp only [List.append_assoc]
  rw [chunk4 "\x7b\n".data "  \"".data "buffer_font_size".data "\": ".data zdM1 _
      (by decide),
    chunk9 ",\n".data "  \"".data "buffer_line_height".data "\": ".data
      "\x7b\n".data (List.replicate 4 ' ') "\"".data "custom".data "\": ".data
      (',' :: zdT2) _ (by decide),
    chunk7 "\n".data (List.replicate 2 ' ') "\x7d".data ",\n".data "  \"".data
      "buffer_font_weight".data "\": ".data ('\n' :: zdT3) _ (by decide),
    chunk5 ",\n".data "  \"".data "cursor_shape".data "\": ".data "\"".data
      (',' :: zdT4) _ (by decide),
    chunk6 "\"".data ",\n".data "  \"".data "buffer_font_family".data "\": ".data
      "\"".data ('"' :: ",\n  \"buffer_font_family\": \"".data) _ (by decide)]
  rw [show "\"".data ++ "\n\x7d".data = "\"\n\x7d".data from by decide]
  simp [zedShape, List.cons_append, List.append_assoc]

/-- With an effective (non-empty) theme, the zed output matches `zedShape`
with a tail carrying font family and `theme`. -/
theorem zed_data_theme (r : Recommendation) (t : String)
    (hth : themeOf r = some t) (hne : t ≠ "") :
    (generateEditorConfig r "zed").data =
      zedShape r.fontSize r.lineHeight r.fontWeight r.cursorStyle
        (",\n  \"buffer_font_family\": \"".data ++
          ((jsonEscape (fontOf r)).data ++
            ("\",\n  \"theme\": \"".data ++
              ((jsonEscape t).data ++ "\"\n\x7d".data)))) := by
  have hgen : generateEditorConfig r "zed" = jsonStringify (zedFields r) := by
    simp [generateEditorConfig]
  have hk1 : jsonEscape "buffer_font_size" = "buffer_font_size" := by decide
  have hk2 : jsonEscape "buffer_line_height" = "buffer_line_height" := by decide
  have hk3 : jsonEscape "custom" = "custom" := by decide
  have hk4 : jsonEscape "buffer_font_weight" = "buffer_font_weight" := by decide
  have hk5 : jsonEscape "cursor_shape" = "cursor_shape" := by decide
  have hk6 : jsonEscape "buffer_font_family" = "buffer_font_family" := by decide
  have hk7 : jsonEscape "theme" = "theme" := by decide
  rw [hgen]
  simp only [zedFields, themeField, hth, hne, if_neg, ite_false]
  simp only [List.cons_append, List.nil_append, List.append_nil]
  simp only [jsonStringify, List.map, joinSep, renderJVal, renderAtom,
    jsonEscape_renderNum, jsonEscape_cursorString, hk1, hk2, hk3, hk4, hk5, hk6, hk7]
  simp only [string_data_append, string_data_mk, renderNum_data]
  simp only [List.append_assoc]
  rw [chunk4 "\x7b\n".data "  \"".data "buffer_font_size".data "\": ".data zdM1 _
      (by decide),
    chunk9 ",\n".data "  \"".data "buffer_line_height".data "\": ".data
      "\x7b\n".data (List.replicate 4 ' ') "\"".data "custom".data "\": ".data
      (',' :: zdT2) _ (by decide),
    chunk7 "\n".data (List.replicate 2 ' ') "\x7d".data ",\n".data "  \"".data
      "buffer_font_weight".data "\": ".data ('\n' :: zdT3) _ (by decide),
    chunk5 ",\n".data "  \"".data "cursor_shape".data "\": ".data "\"".data
      (',' :: zdT4) _ (by decide),
    chunk6 "\"".data ",\n".data "  \"".data "buffer_font_family".data "\": ".data
      "\"".data ('"' :: ",\n  \"buffer_font_family\": \"".data) _ (by decide),
    chunk6 "\"".data ",\n".data "  \"".data "theme".data "\": ".data
      "\"".data ('"' :: ",\n  \"theme\": \"".data) _ (by decide)]
  rw [show "\"".data ++ "\n\x7d".data = "\"\n\x7d".data from by decide]
  simp [zedShape, List.cons_append, List.append_assoc]

/-- Parsing the vscode output recovers the four numeric and cursor fields. -/
theorem parseVscode_roundtrip (r : Recommendation) :
    parseVscode (generateEditorConfig r "vscode") =
      some (r.fontSize, r.lineHeight, r.fontWeight, r.cursorStyle) := by
  unfold parseVscode
  rcases hth : themeOf r with _ | t
  · rw [vscode_data r (by simp [themeField, hth])]
    exact parseVscodeData_shape _ _ _ _ _
  · by_cases hte : t = ""
    · rw [vscode_data r (by simp [themeField, hth, hte])]
      exact parseVscodeData_shape _ _ _ _ _
    · rw [vscode_data_theme r t hth hte]
      exact parseVscodeData_shape _ _ _ _ _

/-- Parsing the zed output recovers the four numeric and cursor fields. -/
theorem parseZed_roundtrip (r : Recommendation) :
    parseZed (generateEditorConfig r "zed") =
      some (r.fontSize, r.lineHeight, r.fontWeight, r.cursorStyle) := by
  unfold parseZed
  rcases hth : themeOf r with _ | t
  · rw [zed_data r (by simp [themeField, hth])]
    exact parseZedData_shape _ _ _ _ _
  · by_cases hte : t = ""
    · rw [zed_data r (by simp [themeField, hth, hte])]
      exact parseZedData_shape _ _ _ _ _
    · rw [zed_data_theme r t hth hte]
      exact parseZedData_shape _ _ _ _ _

/-- A baseline recommendation record with font weight 400. -/
def c1subA : Recommendation :=
  { fontSize := 16, lineHeight := 3/2, fontWeight := 400,
    cursorStyle := CursorStyle.bar, suggestedFonts := [], suggestedThemes := [],
    explanations := [], research := [] }

/-- The same record with font weight 500. -/
def c1subB : Recommendation :=
  { c1subA with fontWeight := 500 }

set_option maxRecDepth 40000 in
/-- Counterexample to C1 as stated for sublime: two recommendations that
differ in `fontWeight` produce byte-identical sublime outputs, because the
sublime arm of `generateEditorConfig` never serializes the font weight. -/
theorem c1_counterexample :
    c1subA.fontWeight ≠ c1subB.fontWeight ∧
    generateEditorConfig c1subA "sublime" = generateEditorConfig c1subB "sublime" := by
  constructor
  · with_unfolding_all decide
  · with_unfolding_all decide

set_option maxRecDepth 40000 in
/-- No parse function at all can recover `fontWeight` from the sublime
output: any candidate maps the identical outputs of `c1subA` and `c1subB` to
the same quadruple, yet their weights differ. -/
theorem c1_sublime_no_parse :
    ¬ ∃ p : String → ℚ × ℚ × ℚ × CursorStyle,
      ∀ r : Recommendation,
        p (generateEditorConfig r "sublime") =
          (r.fontSize, r.lineHeight, r.fontWeight, r.cursorStyle) := by
  rintro ⟨p, hp⟩
  have hA := hp c1subA
  have hB := hp c1subB
  have heq : generateEditorConfig c1subA "sublime" =
      generateEditorConfig c1subB "sublime" := by
    with_unfolding_all decide
  rw [heq, hB] at hA
  have : c1subB.fontWeight = c1subA.fontWeight := congrArg (fun q => q.2.2.1) hA
  exact absurd this (by with_unfolding_all decide)

/-- C1 (amended): for every recommendation, the vscode and zed outputs of
`generateEditorConfig` parse back to the exact `fontSize`, `lineHeight`,
`fontWeight` and `cursorStyle` used to generate them; the sublime output
does not determine `fontWeight` (see the counterexample), so the round-trip
holds for vscode and zed but not sublime. -/
theorem c1_roundtrip_vscode_zed (r : Recommendation) :
    parseVscode (generateEditorConfig r "vscode") =
      some (r.fontSize, r.lineHeight, r.fontWeight, r.cursorStyle) ∧
    parseZed (generateEditorConfig r "zed") =
      some (r.fontSize, r.lineHeight, r.fontWeight, r.cursorStyle) :=
  ⟨parseVscode_roundtrip r, parseZed_roundtrip r⟩
